import Mathlib

/-!
Verification development for the WeatherBuddy repository.

This file gives a shallow embedding, in Lean, of the data model and the
operations of the WeatherBuddy push bot that the specification talks about:

* the static location directory (`src/config/locations.js`),
* the user-preference store (`userPreferenceService`, found in
  `src/services/chartService.js`, lines 540-846 of that file),
* the per-minute scheduler tick (`scheduleTask` in `src/index.js`),
* the push loop (`getWeatherAndPush` in `src/index.js`),
* the JWT token cache (`jwtService`, `src/unnamed/part_002`),
* the weather formatting pipeline (`weatherService`, `src/unnamed/part_003`)
  together with chart generation (`src/services/chartService.js`, lines 1-538),
* the command-message handler (`messageHandler`, `src/unnamed/part_004`).

File I/O is modelled by threading the content of the single JSON
preference file (`Option PrefDoc`, `none` = the file does not exist) through
the operations; outbound HTTP calls are modelled by `Except` parameters
describing the outcome of the external call.  JavaScript truthiness of
strings (empty string is falsy) and of `Option` values is modelled
explicitly where the source relies on it.
-/

/-- Strip `pre` from the front of `l`, when it is a prefix. -/
def dropLiteralPrefix? : List Char → List Char → Option (List Char)
  | [], l => some l
  | _ :: _, [] => none
  | p :: ps, c :: cs => if c = p then dropLiteralPrefix? ps cs else none

/-- Worker for `jsSplit`: split on a non-empty literal separator,
leftmost non-overlapping occurrences (`fuel` bounds the recursion by the
input length). -/
def jsSplitAux (sep : List Char) : Nat → List Char → List Char → List String
  | 0, acc, cs => [String.mk (acc.reverse ++ cs)]
  | _ + 1, acc, [] => [String.mk acc.reverse]
  | fuel + 1, acc, c :: cs =>
    match dropLiteralPrefix? sep (c :: cs) with
    | some rest => String.mk acc.reverse :: jsSplitAux sep fuel [] rest
    | none => jsSplitAux sep fuel (c :: acc) cs

/-- JavaScript `s.split(sep)` for a non-empty literal separator (the only
form this program uses); `"".split(sep)` is `[""]`. -/
def jsSplit (s sep : String) : List String :=
  if sep.isEmpty then [s]
  else jsSplitAux sep.data (s.data.length + 1) [] s.data

/-- `String.startsWith` on the character lists (kernel-computable). -/
def strStartsWith (s pre : String) : Bool := pre.data.isPrefixOf s.data

/-- `String.endsWith` on the character lists (kernel-computable). -/
def strEndsWith (s suf : String) : Bool := suf.data.isSuffixOf s.data

/-- JavaScript `String.prototype.includes`: `true` iff `pat` occurs in `s`
(the empty pattern always occurs). -/
def jsIncludes (s pat : String) : Bool :=
  pat.isEmpty || (jsSplit s pat).length != 1

/-- JavaScript string truthiness: a string is falsy exactly when it is empty. -/
def jsTruthy (s : String) : Bool := !s.isEmpty

/-- Truthiness of an optional string field of a JSON object: the field is
falsy when it is absent (`undefined`) or the empty string. -/
def jsTruthyOpt : Option String → Bool
  | some s => jsTruthy s
  | none => false

/-- JavaScript `a || b` on strings: `b` when `a` is falsy. -/
def jsOr (a b : String) : String := if jsTruthy a then a else b

/-- JavaScript `field || dflt` where `field` is an optional JSON field. -/
def jsOrOpt (a : Option String) (b : String) : String :=
  match a with
  | some s => jsOr s b
  | none => b

/-- Decimal digit test, as used by the `\d` regex class. -/
def isDigitChar (c : Char) : Bool := '0' ≤ c && c ≤ '9'

/-- Numeric value of a list of decimal digits. -/
def digitsToNat : List Char → Nat
  | cs => cs.foldl (fun acc c => 10 * acc + (c.toNat - '0'.toNat)) 0

/-- Model of JavaScript `Number(s)` restricted to the string shapes this
program stores: the empty string converts to `0`, a non-empty string of
decimal digits converts to its value, and every other string converts to
`NaN` (modelled as `none`).  Exotic JavaScript numeric forms (signs,
decimal points, hexadecimal, surrounding whitespace) do not arise from the
store, which only writes strings matching `HH:mm`. -/
def jsNumber (s : String) : Option Nat :=
  if s.isEmpty then some 0
  else if s.data.all isDigitChar then some (digitsToNat s.data)
  else none

/-- JavaScript `\s` whitespace class (the code points relevant here). -/
def jsWs (c : Char) : Bool :=
  c = ' ' || c = '\t' || c = '\n' || c = '\r' || c = '\x0b' || c = '\x0c'

/-- JavaScript `String.prototype.trim`. -/
def jsTrim (s : String) : String :=
  ⟨(s.data.dropWhile jsWs).reverse.dropWhile jsWs |>.reverse⟩

/-! ## Location directory (`src/config/locations.js`)

The directory JSON file has the shape `city -> district -> (code, name)`.
JavaScript object keys are unique and iterated in insertion order, so the
two levels are modelled as association lists; `WellFormedDirectory` below
records the key uniqueness that JSON objects guarantee. -/

/-- One `(code, name)` leaf of the location directory. -/
structure LocEntry where
  code : String
  name : String
  deriving Repr, DecidableEq

/-- The parsed location directory: city name to district name to entry. -/
abbrev Directory := List (String × List (String × LocEntry))

/-- Object-key lookup at the city level (JSON keys are unique, so first
match is the only match). -/
def dirCity (dir : Directory) (city : String) : Option (List (String × LocEntry)) :=
  (dir.find? (fun p => p.1 = city)).map (fun p => p.2)

/-- Lookup of a `(city, district)` entry in the directory. -/
def dirEntry (dir : Directory) (city district : String) : Option LocEntry :=
  match dirCity dir city with
  | some ds => (ds.find? (fun p => p.1 = district)).map (fun p => p.2)
  | none => none

/-- `isLocationValid(city, district)` (two-argument form, source lines
100-103): truthiness of `locations[city] && locations[city][district]`. -/
def isLocationValidCD (dir : Directory) (city district : String) : Bool :=
  (dirEntry dir city district).isSome

/-- `isLocationValid(locationCode)` (one-argument form, source lines 85-98):
scan every city and district for an entry whose `code` equals the argument. -/
def isLocationValidCode (dir : Directory) (code : String) : Bool :=
  dir.any (fun cp => cp.2.any (fun dp => dp.2.code = code))

/-- `getLocationCode(city, district)` (source lines 111-114). -/
def getLocationCode (dir : Directory) (city district : String) : Option String :=
  (dirEntry dir city district).map (fun e => e.code)

/-- `getLocationName(city, district)` (source lines 122-125). -/
def getLocationName (dir : Directory) (city district : String) : Option String :=
  (dirEntry dir city district).map (fun e => e.name)

/-- The location object returned by `getLocationInfo` and by the
preference store (`name` can be `undefined` when the directory lookup
misses, hence `Option String`). -/
structure LocationInfo where
  city : String
  district : String
  code : String
  name : Option String
  deriving Repr, DecidableEq

/-- `getLocationInfo(locationCode)` (source lines 132-150): first
`(city, district)` pair, in iteration order, whose entry code matches. -/
def getLocationInfo (dir : Directory) (code : String) : Option LocationInfo :=
  dir.findSome? (fun cp =>
    cp.2.findSome? (fun dp =>
      if dp.2.code = code then
        some { city := cp.1, district := dp.1, code := code, name := some dp.2.name }
      else none))

/-- Well-formedness that the JSON source of the directory guarantees:
city keys are unique, district keys within a city are unique, and every
location code is a non-empty (numeric) string as the glossary states. -/
structure WellFormedDirectory (dir : Directory) : Prop where
  cityKeysNodup : (dir.map Prod.fst).Nodup
  districtKeysNodup : ∀ cp ∈ dir, (cp.2.map Prod.fst).Nodup
  codesNonEmpty : ∀ cp ∈ dir, ∀ dp ∈ cp.2, dp.2.code ≠ ""

/-! ## User preference store (`userPreferenceService`)

The store owns one JSON file `{ users: { uid: { location, pushTime } } }`.
`Option PrefDoc` is the on-disk state, `none` meaning the file does not
exist. -/

/-- The `location` object stored inside a user record.  `name` is optional
because `JSON.stringify` drops an `undefined` name. -/
structure StoredLocation where
  city : String
  district : String
  code : String
  name : Option String
  deriving Repr, DecidableEq

/-- One user record of the preference file. -/
structure UserRecord where
  location : Option StoredLocation := none
  pushTime : Option String := none
  deriving Repr, DecidableEq

instance : Inhabited UserRecord := ⟨{}⟩

/-- The parsed preference file (`{ users: ... }`); uid keys are unique and
kept in insertion order, as for any JSON object. -/
structure PrefDoc where
  users : List (String × UserRecord)
  deriving Repr, DecidableEq

/-- The empty document `{ users: {} }` written by `ensurePreferenceFileExists`. -/
def emptyPrefDoc : PrefDoc := ⟨[]⟩

/-- `data.users[uid]`. -/
def lookupUser (doc : PrefDoc) (uid : String) : Option UserRecord :=
  (doc.users.find? (fun p => p.1 = uid)).map (fun p => p.2)

/-- `data.users[uid] = rec`: update in place when the key exists (JSON
object update keeps insertion order), append otherwise. -/
def setUser (doc : PrefDoc) (uid : String) (rec : UserRecord) : PrefDoc :=
  if (doc.users.find? (fun p => p.1 = uid)).isSome then
    ⟨doc.users.map (fun p => if p.1 = uid then (uid, rec) else p)⟩
  else
    ⟨doc.users ++ [(uid, rec)]⟩

/-- `ensurePreferenceFileExists` (store source lines 553-569): creates the
file with content `{ users: {} }` when it does not exist. -/
def ensurePreferenceFileExists (doc? : Option PrefDoc) : PrefDoc :=
  doc?.getD emptyPrefDoc

/-- Store errors: `ValidationError` is the only error class the store
itself raises before touching the file. -/
inductive StoreError where
  | validation (msg : String)
  deriving Repr, DecidableEq

/-- Configuration of the default location (`src/unnamed/part_000`,
`defaultLocationConfig`): the code comes from the `LOCATION` environment
variable with fallback `"101190104"`; city and district are constants. -/
structure DefaultLocationConfig where
  code : String := "101190104"
  deriving Repr, DecidableEq

/-- `config.defaultLocation.defaultCity`. -/
def defaultCity : String := "南京"

/-- `config.defaultLocation.defaultDistrict`. -/
def defaultDistrict : String := "江宁"

/-- The `defaultLocation` object built at the top of
`getUserLocationPreference` (store source lines 581-589). -/
def defaultLocation (dir : Directory) (cfg : DefaultLocationConfig) : LocationInfo :=
  { city := defaultCity
    district := defaultDistrict
    code := cfg.code
    name := getLocationName dir defaultCity defaultDistrict }

/-- `getUserLocationPreference(uid)` (store source lines 576-646).
Returns the location info together with the file state after the call
(the call lazily backfills a default location for a user record that
exists without one).  The source never throws: every failure path returns
`defaultLocation`. -/
def getUserLocationPreference (dir : Directory) (cfg : DefaultLocationConfig)
    (doc? : Option PrefDoc) (uid : String) : LocationInfo × PrefDoc :=
  let doc := ensurePreferenceFileExists doc?
  let dflt := defaultLocation dir cfg
  match lookupUser doc uid with
  | some rec =>
    match rec.location with
    | some loc =>
      if isLocationValidCD dir loc.city loc.district then
        match getLocationCode dir loc.city loc.district with
        | some code =>
          if !(jsTruthy code) then
            -- `if (!code)` branch: keep the stored city and district but
            -- fall back to the default code, with name `city + district`
            ({ city := loc.city, district := loc.district,
               code := dflt.code, name := some (loc.city ++ loc.district) }, doc)
          else
            ({ city := loc.city, district := loc.district,
               code := code, name := getLocationName dir loc.city loc.district }, doc)
        | none =>
          -- same `if (!code)` branch (cannot occur once the validity
          -- check has succeeded, but kept to mirror the source)
          ({ city := loc.city, district := loc.district,
             code := dflt.code, name := some (loc.city ++ loc.district) }, doc)
      else
        (dflt, doc)
    | none =>
      -- user exists without a location: backfill the default and persist
      let doc' := setUser doc uid
        { rec with location := some { city := dflt.city, district := dflt.district,
                                      code := dflt.code, name := dflt.name } }
      (dflt, doc')
  | none => (dflt, doc)

/-- `setUserLocationPreference(uid, locationCode)` (store source lines
654-698).  Validation runs before the read-modify-write; note that
`ensurePreferenceFileExists` runs before validation, so a missing file is
created even when validation then fails. -/
def setUserLocationPreference (dir : Directory) (doc? : Option PrefDoc)
    (uid code : String) : Option PrefDoc × Except StoreError Bool :=
  let doc := ensurePreferenceFileExists doc?
  if !(isLocationValidCode dir code) then
    (some doc, .error (.validation ("无效的地区代码: " ++ code)))
  else
    match getLocationInfo dir code with
    | some info =>
      let rec0 := (lookupUser doc uid).getD {}
      let doc' := setUser doc uid
        { rec0 with location := some { city := info.city, district := info.district,
                                       code := code, name := info.name } }
      (some doc', .ok true)
    | none =>
      -- unreachable: `isLocationValidCode` and `getLocationInfo` perform
      -- the same scan of the directory
      (some doc, .error (.validation ("无效的地区代码: " ++ code)))

/-- The regex `^([01]\d|2[0-3]):([0-5]\d)$` (store source line 711). -/
def timePattern (s : String) : Bool :=
  match s.data with
  | [h1, h2, c, m1, m2] =>
    ((h1 = '0' || h1 = '1') && isDigitChar h2 || h1 = '2' && '0' ≤ h2 && h2 ≤ '3')
      && c = ':' && '0' ≤ m1 && m1 ≤ '5' && isDigitChar m2
  | _ => false

/-- The regex `^(\d):([0-5]\d)$` (store source line 715): single-digit
hour, valid two-digit minutes. -/
def singleDigitTimePattern (s : String) : Bool :=
  match s.data with
  | [h, c, m1, m2] =>
    isDigitChar h && c = ':' && '0' ≤ m1 && m1 ≤ '5' && isDigitChar m2
  | _ => false

/-- The normalization step of `updatePushTime` (store source lines
714-719): prefix a `0` to a single-digit hour. -/
def normalizePushTime (time : String) : String :=
  if singleDigitTimePattern time then "0" ++ time else time

/-- `updatePushTime(uid, time)` (store source lines 706-752): normalize,
validate against `timePattern`, then read-modify-write the file. -/
def updatePushTime (doc? : Option PrefDoc) (uid time : String) :
    Option PrefDoc × Except StoreError Bool :=
  let doc := ensurePreferenceFileExists doc?
  let formattedTime := normalizePushTime time
  if !(timePattern formattedTime) then
    (some doc, .error (.validation ("无效的推送时间格式: " ++ time)))
  else
    let rec0 := (lookupUser doc uid).getD {}
    (some (setUser doc uid { rec0 with pushTime := some formattedTime }), .ok true)

/-- `getPushTime(uid)` (store source lines 759-783): the stored push time
when the record and a truthy `pushTime` exist, `"20:00"` otherwise (also
on any read error). -/
def getPushTime (doc? : Option PrefDoc) (uid : String) : String :=
  let doc := ensurePreferenceFileExists doc?
  match lookupUser doc uid with
  | some rec =>
    match rec.pushTime with
    | some t => if jsTruthy t then t else "20:00"
    | none => "20:00"
  | none => "20:00"

/-! ## Scheduler tick (`scheduleTask`, `src/index.js` lines 271-444)

Every minute the job reads the eligible uid list, and for each uid reads
the preference file directly, resolves a push-time string (lazily
backfilling default records), parses it with
`userPushTime.split(":").map(Number)`, and collects the uid when the
parsed `(hour, minute)` equals the current wall-clock `(hour, minute)`.
The collected uids are then dispatched once to `getWeatherAndPush`. -/

/-- The default record the scheduler writes for a brand-new user
(`src/index.js` lines 333-341 and 379-391): push time
`` `${defaultPushHour}:${defaultPushMinute.toString().padStart(2, "0")}` ``
= `"20:00"`, location 南京江宁 with the hard-coded code `"101190104"`. -/
def schedulerDefaultRecord : UserRecord :=
  { pushTime := some "20:00"
    location := some { city := "南京", district := "江宁",
                       code := "101190104", name := some "南京江宁" } }

/-- Per-uid push-time resolution of the scheduler tick (`src/index.js`
lines 303-413), returning the resolved string and the file state after
the lazy backfills:

* file missing: create the default file for this uid, resolve `"20:00"`;
* record with a truthy `pushTime`: resolve it, no write;
* record with absent or empty `pushTime`: write `"20:00"` into the
  record, resolve `"20:00"`;
* no record: write a full default record, resolve `"20:00"`.

The subsequent guard `if (!userPushTime || typeof userPushTime !== "string")`
(lines 410-413) can no longer fire at this point — the resolved value is
always a non-empty string — so it adds nothing here.  Note the code never
re-defaults a *present but unparsable* push-time string. -/
def resolvePushTime (doc? : Option PrefDoc) (uid : String) : String × Option PrefDoc :=
  match doc? with
  | none => ("20:00", some ⟨[(uid, schedulerDefaultRecord)]⟩)
  | some doc =>
    match lookupUser doc uid with
    | some rec =>
      match rec.pushTime with
      | some t =>
        if jsTruthy t then (t, some doc)
        else ("20:00", some (setUser doc uid { rec with pushTime := some "20:00" }))
      | none => ("20:00", some (setUser doc uid { rec with pushTime := some "20:00" }))
    | none => ("20:00", some (setUser doc uid schedulerDefaultRecord))

/-- The time comparison of the tick (`src/index.js` lines 416-424):
`const [hour, minute] = userPushTime.split(":").map(Number)` followed by
`hour === currentHour && minute === currentMinute`.  With fewer than two
split parts `minute` is `undefined` and the strict comparison fails. -/
def parsedTimeMatches (t : String) (h m : Nat) : Bool :=
  match jsSplit t ":" with
  | p0 :: p1 :: _ => jsNumber p0 == some h && jsNumber p1 == some m
  | _ => false

/-- One scheduler tick over the eligible uid list at wall-clock time
`(h, m)`: the list of uids pushed (in order) and the final file state. -/
def schedulerTick (doc? : Option PrefDoc) (uids : List String) (h m : Nat) :
    List String × Option PrefDoc :=
  uids.foldl
    (fun acc uid =>
      let r := resolvePushTime acc.2 uid
      (if parsedTimeMatches r.1 h m then acc.1 ++ [uid] else acc.1, r.2))
    ([], doc?)

/-- Modelled from the spec: the claim's reading of push-time resolution,
"resolve its pushTime preference (defaulting to 20:00 if absent or
invalid)" — i.e. a stored value that is not a valid `HH:mm` time is
replaced by `"20:00"`.  This is the comparison point for claim C1; the
source (`resolvePushTime`) defaults only absent or empty values. -/
def specResolvedPushTime (doc? : Option PrefDoc) (uid : String) : String :=
  match doc? with
  | none => "20:00"
  | some doc =>
    match lookupUser doc uid with
    | some rec =>
      match rec.pushTime with
      | some t => if timePattern t then t else "20:00"
      | none => "20:00"
    | none => "20:00"

/-! ## Push loop (`getWeatherAndPush`, `src/index.js` lines 23-167)

The loop body (lines 38-163) — preference lookup, forecast fetch,
suggestion, formatting, push — is entirely wrapped in a per-iteration
`try { ... } catch (error) { ...continue with the next user... }`, so a
per-user pipeline is abstracted as a function `String → Except String Unit`
and the loop records each attempt's outcome and always proceeds. -/

/-- The per-user loop of `getWeatherAndPush`: attempt the pipeline for
every uid in order; a thrown error is caught (recorded as `.error`) and
the loop continues with the next uid. -/
def getWeatherAndPush (pipeline : String → Except String Unit)
    (uids : List String) : List (String × Except String Unit) :=
  uids.foldl (fun acc uid => acc ++ [(uid, pipeline uid)]) []

/-! ## JWT token cache (`jwtService`, `src/unnamed/part_002`) -/

/-- The claims of the signed weather JWT (seconds since the epoch):
`iat = floor(Date.now() / 1000) - 30`, `exp = iat + 3600`
(source lines 32-37). -/
structure JwtToken where
  iat : Int
  exp : Int
  deriving Repr, DecidableEq

/-- `generateWeatherJWT` (source lines 10-49), given the current time in
milliseconds.  `Math.floor` on a non-negative quotient is Euclidean
division. -/
def generateWeatherJWT (nowMs : Int) : JwtToken :=
  let t := nowMs / 1000 - 30
  { iat := t, exp := t + 3600 }

/-- The module-level cache `let cachedToken = null; let tokenExpiry = 0`
(source lines 54-55). -/
structure TokenCache where
  cachedToken : Option JwtToken := none
  tokenExpiry : Int := 0
  deriving Repr, DecidableEq

/-- `getJWTToken` (source lines 57-73): regenerate when no token is
cached or `now > tokenExpiry - 300000` (five minutes before the *cache*
expiry); on regeneration the cache expiry is set to fifty minutes from
now (`tokenExpiry = now + 50 * 60 * 1000`). -/
def getJWTToken (nowMs : Int) (c : TokenCache) : JwtToken × TokenCache :=
  let stale :=
    match c.cachedToken with
    | none => true
    | some _ => nowMs > c.tokenExpiry - 300000
  if stale then
    let tok := generateWeatherJWT nowMs
    (tok, { cachedToken := some tok, tokenExpiry := nowMs + 50 * 60 * 1000 })
  else
    (c.cachedToken.getD (generateWeatherJWT nowMs), c)

/-! ## Weather data and tomorrow extraction (`src/unnamed/part_003`) -/

/-- One entry of the forecast `daily` array.  The API returns all fields
as strings; absent fields are modelled by the empty string, which is
exactly what the source's truthiness fallbacks (`|| "0"`, `|| "未知"`)
test for. -/
structure ForecastDay where
  fxDate : String := ""
  textDay : String := ""
  textNight : String := ""
  tempMin : String := ""
  tempMax : String := ""
  windDirDay : String := ""
  windScaleDay : String := ""
  humidity : String := ""
  precip : String := ""
  pop : String := ""
  deriving Repr, DecidableEq

/-- The forecast response as used by the formatter: the `daily` array
(`none` when the field is missing), the `locationName` attached by
`getWeatherByLocation`, and the `location` field read (with fallback) by
`formatWeatherData`. -/
structure WeatherData where
  daily : Option (List ForecastDay) := none
  locationName : Option String := none
  location : Option String := none
  deriving Repr, DecidableEq

/-- `getTomorrowWeather(weatherData)` (source lines 104-110): throws
`"无法获取明天的天气数据"` when the data, its `daily` array, or a second
entry is missing; otherwise returns `daily[1]`. -/
def getTomorrowWeather (weatherData : Option WeatherData) : Except String ForecastDay :=
  match weatherData with
  | none => .error "无法获取明天的天气数据"
  | some wd =>
    match wd.daily with
    | none => .error "无法获取明天的天气数据"
    | some daily =>
      if daily.length < 2 then .error "无法获取明天的天气数据"
      else
        match daily.get? 1 with
        | some d => .ok d
        | none => .error "无法获取明天的天气数据"  -- unreachable: length ≥ 2

/-! ## Chart generation (`src/services/chartService.js`, lines 1-538)

Each generator builds a chart-config JSON string and hands it to
`generateChartImageWithString`, which performs the external QuickChart
call, writes the PNG, and returns the file name — or `null` when anything
(JSON parse, the HTTP request, a non-200 status, the file write) fails,
because its whole body is wrapped in `try { ... } catch { return null }`.
The chart-config string only parameterizes the external request and has
no influence on the returned file name, so it is not reconstructed here;
the network outcome is a parameter. -/

/-- `generateChartImageWithString(chartConfigStr, filePrefix)` (source
lines 468-516).  `stem` is the `filePrefix` argument of the source,
`timestamp` models `new Date().getTime()`.  Any failure of the external
call is caught and yields `none`; success yields
`` `${filePrefix}_${timestamp}.png` ``. -/
def generateChartImageWithString (net : Except String Unit)
    (stem : String) (timestamp : Nat) : Option String :=
  match net with
  | .error _ => none
  | .ok _ => some (stem ++ "_" ++ toString timestamp ++ ".png")

/-- `generateTemperatureChart(dailyData, locationCode)` (source lines
25-155): `null` when fewer than 3 daily entries, otherwise
`/charts/` ++ the generated file name (or `null` on generation failure). -/
def generateTemperatureChart (dailyData : List ForecastDay) (locationCode : String)
    (net : Except String Unit) (timestamp : Nat) : Option String :=
  if dailyData.length < 3 then none
  else
    match generateChartImageWithString net ("temp_chart_" ++ locationCode) timestamp with
    | none => none
    | some filename => some ("/charts/" ++ filename)

/-- `generateRainfallChart(dailyData, locationCode)` (source lines 163-324). -/
def generateRainfallChart (dailyData : List ForecastDay) (locationCode : String)
    (net : Except String Unit) (timestamp : Nat) : Option String :=
  if dailyData.length < 3 then none
  else
    match generateChartImageWithString net ("rain_chart_" ++ locationCode) timestamp with
    | none => none
    | some filename => some ("/charts/" ++ filename)

/-- `generateWindChart(dailyData, locationCode)` (source lines 332-460). -/
def generateWindChart (dailyData : List ForecastDay) (locationCode : String)
    (net : Except String Unit) (timestamp : Nat) : Option String :=
  if dailyData.length < 3 then none
  else
    match generateChartImageWithString net ("wind_chart_" ++ locationCode) timestamp with
    | none => none
    | some filename => some ("/charts/" ++ filename)

/-! ## Weather message formatting (`src/unnamed/part_003`) -/

/-- JavaScript `parseInt(s)`: skip leading whitespace, optional sign,
then the longest decimal-digit prefix; `NaN` (`none`) when no digit
follows.  (The hexadecimal `0x` form does not arise here.) -/
def jsParseInt (s : String) : Option Int :=
  let cs := s.data.dropWhile jsWs
  let signAndRest : Int × List Char :=
    match cs with
    | '-' :: r => (-1, r)
    | '+' :: r => (1, r)
    | _ => (1, cs)
  let ds := signAndRest.2.takeWhile isDigitChar
  if ds.isEmpty then none else some (signAndRest.1 * (digitsToNat ds : Int))

/-- Rendering of a JavaScript number in a template string: `NaN` prints
as `"NaN"`. -/
def jsIntToString : Option Int → String
  | none => "NaN"
  | some n => toString n

/-- `x >= bound` on a JavaScript number: false for `NaN`. -/
def jsGe (x : Option Int) (bound : Int) : Bool :=
  match x with
  | some v => bound ≤ v
  | none => false

/-- `x <= bound` on a JavaScript number: false for `NaN`. -/
def jsLe (x : Option Int) (bound : Int) : Bool :=
  match x with
  | some v => v ≤ bound
  | none => false

/-- The weekday names of `getWeekdayName` (source lines 691-699). -/
def weekdays : List String := ["周日", "周一", "周二", "周三", "周四", "周五", "周六"]

/-- Parse a `YYYY-MM-DD` date string (the `fxDate` format of the API). -/
def parseIsoDate (s : String) : Option (Nat × Nat × Nat) :=
  match jsSplit s "-" with
  | [y, m, d] =>
    if !y.isEmpty && y.data.all isDigitChar && !m.isEmpty && m.data.all isDigitChar
        && !d.isEmpty && d.data.all isDigitChar then
      let mv := digitsToNat m.data
      let dv := digitsToNat d.data
      if 1 ≤ mv && mv ≤ 12 && 1 ≤ dv && dv ≤ 31 then some (digitsToNat y.data, mv, dv)
      else none
    else none
  | _ => none

/-- Day of week (0 = Sunday) of a calendar date, by Sakamoto's method;
models `new Date("YYYY-MM-DD").getDay()` on the server. -/
def dayOfWeek (y m d : Nat) : Nat :=
  let t : List Nat := [0, 3, 2, 5, 0, 3, 5, 1, 4, 6, 2, 4]
  let y' := if m < 3 then y - 1 else y
  (y' + y' / 4 - y' / 100 + y' / 400 + t.getD (m - 1) 0 + d) % 7

/-- `getWeekdayName(dateString)` (source lines 691-699): the weekday name
of the parsed date; an unparsable date yields `weekdays[NaN]`, i.e. the
string `"undefined"` once interpolated. -/
def getWeekdayName (dateString : String) : String :=
  match parseIsoDate dateString with
  | some (y, m, d) => (weekdays.get? (dayOfWeek y m d)).getD ""
  | none => "undefined"

/-- The icon table of `getWeatherIcon` (source lines 706-731), in object
insertion order. -/
def weatherIconTable : List (String × String) :=
  [("晴", "☀️"), ("多云", "⛅"), ("阴", "☁️"), ("小雨", "🌦️"), ("中雨", "🌧️"),
   ("大雨", "🌧️"), ("暴雨", "⛈️"), ("雷阵雨", "⛈️"), ("小雪", "🌨️"),
   ("中雪", "🌨️"), ("大雪", "❄️"), ("雾", "🌫️"), ("霾", "🌫️")]

/-- `getWeatherIcon(weatherText)`: first table key contained in the text,
default `🌈`. -/
def getWeatherIcon (weatherText : String) : String :=
  match weatherIconTable.find? (fun p => jsIncludes weatherText p.1) with
  | some p => p.2
  | none => "🌈"

/-- `getWeatherBackground(weatherText)` (source lines 533-588). -/
def getWeatherBackground (weatherText : String) : String :=
  if jsIncludes weatherText "暴雨" || jsIncludes weatherText "大暴雨"
      || jsIncludes weatherText "特大暴雨" then
    "https://images.unsplash.com/photo-1605727216801-e27ce1d0cc28?q=80&w=1000&auto=format&fit=crop"
  else if jsIncludes weatherText "大雨" then
    "https://images.unsplash.com/photo-1433863448220-78aaa064ff47?q=80&w=1000&auto=format&fit=crop"
  else if jsIncludes weatherText "中雨" then
    "https://images.unsplash.com/photo-1515694346937-94d85e41e6f0?q=80&w=1000&auto=format&fit=crop"
  else if jsIncludes weatherText "雨" then
    "https://images.unsplash.com/photo-1534274988757-a28bf1a57c17?q=80&w=1000&auto=format&fit=crop"
  else if jsIncludes weatherText "大雪" || jsIncludes weatherText "暴雪" then
    "https://images.unsplash.com/photo-1542601906990-b4d3fb778b09?q=80&w=1000&auto=format&fit=crop"
  else if jsIncludes weatherText "中雪" then
    "https://images.unsplash.com/photo-1477601263568-180e2c6d046e?q=80&w=1000&auto=format&fit=crop"
  else if jsIncludes weatherText "雪" then
    "https://images.unsplash.com/photo-1491002052546-bf38f186af56?q=80&w=1000&auto=format&fit=crop"
  else if jsIncludes weatherText "晴" then
    "https://images.unsplash.com/photo-1419833173245-f59e1b93f9ee?q=80&w=1000&auto=format&fit=crop"
  else if jsIncludes weatherText "多云" then
    "https://images.unsplash.com/photo-1534088568595-a066f410bcda?q=80&w=1000&auto=format&fit=crop"
  else if jsIncludes weatherText "阴" then
    "https://images.unsplash.com/photo-1499956827185-0d63ee78a910?q=80&w=1000&auto=format&fit=crop"
  else if jsIncludes weatherText "雾" then
    "https://images.unsplash.com/photo-1487621167305-5d248087c724?q=80&w=1000&auto=format&fit=crop"
  else if jsIncludes weatherText "霾" then
    "https://images.unsplash.com/photo-1535695449338-46723397d2be?q=80&w=1000&auto=format&fit=crop"
  else if jsIncludes weatherText "沙尘" || jsIncludes weatherText "扬沙" then
    "https://images.unsplash.com/photo-1521811559553-2a6ceb56cf58?q=80&w=1000&auto=format&fit=crop"
  else if jsIncludes weatherText "冰雹" || jsIncludes weatherText "雹" then
    "https://images.unsplash.com/photo-1624961688978-18063bec05ad?q=80&w=1000&auto=format&fit=crop"
  else if jsIncludes weatherText "雷" || jsIncludes weatherText "闪电" then
    "https://images.unsplash.com/photo-1461511669078-d46bf351cd6e?q=80&w=1000&auto=format&fit=crop"
  else
    "https://images.unsplash.com/photo-1601297183305-6df142704ea2?q=80&w=1000&auto=format&fit=crop"

/-- The rain sub-table of `generateWeatherAlert`'s `alertTypes` (source
lines 740-745), in object insertion order. -/
def rainAlerts : List (String × String) :=
  [("大雨", "明天有大雨，出门请带伞，小心路滑"),
   ("暴雨", "明天有暴雨，尽量减少外出活动"),
   ("中雨", "明天有中雨，记得带伞"),
   ("雷阵雨", "明天有雷阵雨，注意防雷防雨")]

/-- The snow sub-table of `alertTypes` (source lines 747-750). -/
def snowAlerts : List (String × String) :=
  [("大雪", "明天有大雪，注意保暖，路面可能结冰"),
   ("中雪", "明天有中雪，出行注意安全")]

/-- The wind sub-table of `alertTypes` (source lines 754-759); keys are
the stringified wind scales 5-8 (integer-like keys iterate ascending). -/
def windAlerts : List (String × String) :=
  [("5", "明天风力较大，注意防风"),
   ("6", "明天风力较大，注意防风"),
   ("7", "明天大风，谨慎出行，注意安全"),
   ("8", "明天大风，尽量减少户外活动")]

/-- `generateWeatherAlert(weatherData)` (source lines 738-795): walk the
`alertTypes` table over `textDay + textNight`, then the wind-scale check,
then the temperature checks; `null` when nothing applies. -/
def generateWeatherAlert (w : ForecastDay) : Option String :=
  let weatherDesc := w.textDay ++ w.textNight
  match rainAlerts.find? (fun p => jsIncludes weatherDesc p.1) with
  | some p => some p.2
  | none =>
  match snowAlerts.find? (fun p => jsIncludes weatherDesc p.1) with
  | some p => some p.2
  | none =>
  if jsIncludes weatherDesc "雾" then some "明天有雾，能见度低，开车注意安全"
  else if jsIncludes weatherDesc "沙尘" then some "明天有沙尘天气，建议戴口罩"
  else if jsIncludes weatherDesc "霾" then some "明天有霾，注意防护，戴好口罩"
  else
  match windAlerts.find? (fun p => jsIncludes weatherDesc p.1) with
  | some p => some p.2
  | none =>
  let windScale := jsParseInt (jsOr w.windScaleDay "0")
  match (if jsGe windScale 5 then
           (windAlerts.find? (fun p => p.1 = jsIntToString windScale)).map Prod.snd
         else none) with
  | some msg => some msg
  | none =>
  let minTemp := jsParseInt (jsOr w.tempMin "0")
  let maxTemp := jsParseInt (jsOr w.tempMax "0")
  if jsGe maxTemp 35 then some "明天气温较高，注意防暑降温，多喝水"
  else if jsLe minTemp 0 then some "明天气温较低，注意保暖"
  else none

/-- `getTrendArrow(current, next)` inside `generateTemperatureTrendHTML`
(source lines 643-647); `NaN` compares false both ways, giving `→`. -/
def getTrendArrow (current next : Option Int) : String :=
  match current, next with
  | some c, some n =>
    if c < n then "<span class=\"trend-arrow\">↗️</span>"
    else if n < c then "<span class=\"trend-arrow\">↘️</span>"
    else "<span class=\"trend-arrow\">→</span>"
  | _, _ => "<span class=\"trend-arrow\">→</span>"

/-- `generateTemperatureTrendHTML(dailyData)` (source lines 626-684):
three-day table of icons, weekday labels, max/min temperatures and trend
arrows; empty string for fewer than 3 days. -/
def generateTemperatureTrendHTML (dailyData : List ForecastDay) : String :=
  if dailyData.length < 3 then ""
  else
    let data := dailyData.take 3
    let wk := data.map (fun day => getWeekdayName day.fxDate)
    let ic := data.map (fun day => getWeatherIcon day.textDay)
    let mx := data.map (fun day => jsParseInt day.tempMax)
    let mn := data.map (fun day => jsParseInt day.tempMin)
    let w (i : Nat) : String := wk.getD i ""
    let icn (i : Nat) : String := ic.getD i ""
    let mxi (i : Nat) : Option Int := mx.getD i none
    let mni (i : Nat) : Option Int := mn.getD i none
    "\n    <table class=\"trend-table\">\n      <tr>\n        <th>"
      ++ icn 0 ++ " " ++ w 0 ++ "</th>\n        <th></th>\n        <th>"
      ++ icn 1 ++ " " ++ w 1 ++ "</th>\n        <th></th>\n        <th>"
      ++ icn 2 ++ " " ++ w 2 ++ "</th>\n      </tr>\n      <tr>\n        <td class=\"high-temp\">"
      ++ jsIntToString (mxi 0) ++ "°C</td>\n        <td>" ++ getTrendArrow (mxi 0) (mxi 1)
      ++ "</td>\n        <td class=\"high-temp\">" ++ jsIntToString (mxi 1)
      ++ "°C</td>\n        <td>" ++ getTrendArrow (mxi 1) (mxi 2)
      ++ "</td>\n        <td class=\"high-temp\">" ++ jsIntToString (mxi 2)
      ++ "°C</td>\n      </tr>\n      <tr>\n        <td class=\"low-temp\">"
      ++ jsIntToString (mni 0) ++ "°C</td>\n        <td>" ++ getTrendArrow (mni 0) (mni 1)
      ++ "</td>\n        <td class=\"low-temp\">" ++ jsIntToString (mni 1)
      ++ "°C</td>\n        <td>" ++ getTrendArrow (mni 1) (mni 2)
      ++ "</td>\n        <td class=\"low-temp\">" ++ jsIntToString (mni 2)
      ++ "°C</td>\n      </tr>\n      <tr>\n        <td><small>今天</small></td>\n        <td></td>\n        <td><small>明天</small></td>\n        <td></td>\n        <td><small>后天</small></td>\n      </tr>\n    </table>\n  "

/-- The character class `\p{Emoji}` of the clothing-suggestion regex,
approximated on the code points that occur in this program (the Unicode
Emoji property also covers the ASCII digits, `#` and `*`). -/
def isEmojiChar (c : Char) : Bool :=
  let n := c.toNat
  isDigitChar c || c = '#' || c = '*'
    || (0x1F000 ≤ n && n ≤ 0x1FAFF) || (0x2600 ≤ n && n ≤ 0x27BF)
    || (0x2300 ≤ n && n ≤ 0x23FF) || (0x2B00 ≤ n && n ≤ 0x2BFF)
    || n = 0x2122 || n = 0x3030 || n = 0x00A9 || n = 0x00AE

/-- One `clothing-item` block of `formatClothingSuggestionHTML`. -/
def clothingItemHtml (emoji text : String) : String :=
  "\n        <div class=\"clothing-item\">\n          <div class=\"clothing-icon\">"
    ++ emoji ++ "</div>\n          <div class=\"clothing-text\">" ++ text
    ++ "</div>\n        </div>\n      "

/-- `formatClothingSuggestionHTML(suggestion)` (source lines 595-619):
split into non-blank lines; for each line take the leading emoji run
(default `👕`), skip whitespace, and wrap the remainder. -/
def formatClothingSuggestionHTML (suggestion : String) : String :=
  if !(jsTruthy suggestion) then ""
  else
    let lines := (jsSplit suggestion "\n").filter (fun l => (jsTrim l).length > 0)
    String.join (lines.map (fun line =>
      let emojiPre := line.data.takeWhile isEmojiChar
      let rest := (line.data.drop emojiPre.length).dropWhile jsWs
      let emoji := if emojiPre.isEmpty then "👕" else String.mk emojiPre
      clothingItemHtml emoji (String.mk rest)))

/-- The CSS block of `formatWeatherData` (source lines 213-384), with the
two interpolated values (`tempColor` in `.temp`, `bgImage` in
`.card-header`).  Whitespace is compacted; every rule of the source is
present. -/
def weatherCss (tempColor bgImage : String) : String :=
  String.intercalate "\n    " [
    "body \x7b font-family: \"PingFang SC\", \"Hiragino Sans GB\", \"Microsoft YaHei\", sans-serif; color: #333; margin: 0; padding: 0; line-height: 1.6; \x7d",
    ".weather-card \x7b border-radius: 15px; overflow: hidden; box-shadow: 0 4px 12px rgba(0, 0, 0, 0.1); margin: 10px 0; background-color: #fff; \x7d",
    ".card-header \x7b background: linear-gradient(120deg, #3498db, #2c82c9); color: white; padding: 15px; font-size: 18px; font-weight: bold; text-align: center; background-image: url(\x27" ++ bgImage ++ "\x27); background-size: cover; background-position: center; position: relative; \x7d",
    ".card-header-overlay \x7b position: absolute; top: 0; left: 0; right: 0; bottom: 0; background: rgba(0, 0, 0, 0.3); z-index: 1; \x7d",
    ".card-header-content \x7b position: relative; z-index: 2; \x7d",
    ".card-date \x7b font-size: 14px; opacity: 0.9; margin-top: 5px; \x7d",
    ".card-body \x7b padding: 15px; \x7d",
    ".weather-item \x7b display: flex; align-items: center; margin-bottom: 12px; font-size: 16px; \x7d",
    ".weather-icon \x7b width: 24px; text-align: center; margin-right: 12px; font-size: 20px; \x7d",
    ".temp \x7b color: " ++ tempColor ++ "; font-weight: bold; font-size: 18px; \x7d",
    ".weather-alert \x7b background-color: #fff4e5; border-left: 4px solid #ff9500; padding: 10px 15px; margin: 10px 0; border-radius: 5px; display: flex; align-items: center; \x7d",
    ".trend-section, .chart-section \x7b margin-top: 15px; border-top: 1px dashed #eee; padding-top: 15px; \x7d",
    ".trend-title, .chart-title \x7b font-size: 16px; font-weight: bold; margin-bottom: 10px; color: #3498db; display: flex; align-items: center; \x7d",
    ".trend-title .icon, .chart-title .icon \x7b margin-right: 8px; \x7d",
    ".chart-section \x7b margin-top: 20px; background-color: #f8fafc; border-radius: 10px; padding: 15px; box-shadow: 0 1px 3px rgba(0,0,0,0.05); \x7d",
    ".chart-title \x7b color: #2c3e50; margin-bottom: 15px; \x7d",
    ".trend-chart \x7b overflow-x: auto; font-size: 14px; \x7d",
    ".trend-table \x7b width: 100%; border-collapse: collapse; text-align: center; \x7d",
    ".trend-table th \x7b font-weight: normal; padding: 5px; color: #666; \x7d",
    ".trend-table td \x7b padding: 5px; \x7d",
    ".high-temp \x7b color: #ff6666; font-weight: bold; \x7d",
    ".low-temp \x7b color: #3498db; font-weight: bold; \x7d",
    ".trend-arrow \x7b font-size: 18px; color: #666; width: 24px; display: inline-block; \x7d",
    ".clothing-section \x7b margin-top: 15px; border-top: 1px dashed #eee; padding-top: 15px; \x7d",
    ".clothing-title \x7b font-size: 16px; font-weight: bold; margin-bottom: 10px; color: #3498db; display: flex; align-items: center; \x7d",
    ".clothing-title .icon \x7b margin-right: 8px; \x7d",
    ".clothing-item \x7b display: flex; align-items: flex-start; margin-bottom: 8px; \x7d",
    ".clothing-icon \x7b min-width: 24px; text-align: center; margin-right: 8px; \x7d",
    ".clothing-text \x7b flex: 1; line-height: 1.5; \x7d",
    ".footer \x7b text-align: center; color: #999; font-size: 12px; margin-top: 15px; padding: 8px; background-color: #f9f9f9; border-radius: 0 0 15px 15px; \x7d"]

/-- `` process.env.SERVER_BASE_URL || `http://localhost:${process.env.PORT || 3000}` ``
(computed in each chart block of `formatWeatherData`). -/
def computeServerBaseUrl (envServerBaseUrl envPort : Option String) : String :=
  jsOrOpt envServerBaseUrl ("http://localhost:" ++ jsOrOpt envPort "3000")

/-- The temperature chart block of `formatWeatherData` (source lines
452-466), emitted when `tempChartUrl` is truthy. -/
def tempChartSection (base url : String) : String :=
  "\n      <div class=\"chart-section\">\n        <div class=\"chart-title\"><span class=\"icon\">📊</span> 温度走势图</div>\n        <div class=\"chart-image\">\n          <img src=\""
    ++ base ++ url
    ++ "\" alt=\"温度走势图\" style=\"max-width:100%; border-radius:8px;\">\n        </div>\n      </div>\n      "

/-- The rainfall chart block of `formatWeatherData` (source lines 468-482). -/
def rainChartSection (base url : String) : String :=
  "\n      <div class=\"chart-section\">\n        <div class=\"chart-title\"><span class=\"icon\">💧</span> 降水预测</div>\n        <div class=\"chart-image\">\n          <img src=\""
    ++ base ++ url
    ++ "\" alt=\"降水预测图\" style=\"max-width:100%; border-radius:8px;\">\n        </div>\n      </div>\n      "

/-- The wind chart block of `formatWeatherData` (source lines 484-498). -/
def windChartSection (base url : String) : String :=
  "\n      <div class=\"chart-section\">\n        <div class=\"chart-title\"><span class=\"icon\">🌬️</span> 风力预测</div>\n        <div class=\"chart-image\">\n          <img src=\""
    ++ base ++ url
    ++ "\" alt=\"风力预测图\" style=\"max-width:100%; border-radius:8px;\">\n        </div>\n      </div>\n      "

/-- The chart blocks appended by `formatWeatherData`, in order: one block
per chart whose URL is truthy (`if (tempChartUrl)`, `if (rainChartUrl)`,
`if (windChartUrl)`); a failed chart contributes nothing. -/
def chartSectionsHtml (base : String) (tempUrl rainUrl windUrl : Option String) :
    List String :=
  (if jsTruthyOpt tempUrl then [tempChartSection base (tempUrl.getD "")] else [])
    ++ (if jsTruthyOpt rainUrl then [rainChartSection base (rainUrl.getD "")] else [])
    ++ (if jsTruthyOpt windUrl then [windChartSection base (windUrl.getD "")] else [])

/-- The five candidate bottom images of `getRandomBottomImage` (source
lines 116-126). -/
def bottomImages : List String :=
  ["https://pic1.imgdb.cn/item/67e0bbaf88c538a9b5c56204.gif",
   "https://pic1.imgdb.cn/item/67eca2a80ba3d5a1d7e9b978.gif",
   "https://pic1.imgdb.cn/item/67eca2a80ba3d5a1d7e9b979.gif",
   "https://pic1.imgdb.cn/item/67eca4710ba3d5a1d7e9bf32.gif",
   "https://pic1.imgdb.cn/item/67eca4a60ba3d5a1d7e9bfa1.gif"]

/-- `getRandomBottomImage()`: `images[Math.floor(Math.random() * 5)]`,
with the random draw supplied as a parameter. -/
def getRandomBottomImage (randomIdx : Nat) : String :=
  (bottomImages.get? (randomIdx % bottomImages.length)).getD ""

/-- The temperature colour choice of `formatWeatherData` (source lines
164-174): red for hot, orange for warm, pale blue for freezing, default
blue otherwise (`NaN` temperatures compare false and fall through). -/
def weatherTempColor (tomorrow : ForecastDay) : String :=
  if jsGe (jsParseInt tomorrow.tempMax) 35 then "#ff6666"
  else if jsGe (jsParseInt tomorrow.tempMax) 30 then "#ff9900"
  else if jsLe (jsParseInt tomorrow.tempMin) 0 then "#99ccff"
  else "#20a0ff"

/-- The head of the weather HTML (source lines 387-427): document shell,
style block, card header and the four weather items. -/
def weatherHeadHtml (css cityName date weekday weatherIcon weatherDesc temperature
    windDirection windPower humidity : String) : String :=
  "\n<!DOCTYPE html>\n<html>\n<head>\n  <meta charset=\"UTF-8\">\n  <meta name=\"viewport\" content=\"width=device-width, initial-scale=1.0\">\n  <style>\n    "
    ++ css
    ++ "\n  </style>\n</head>\n<body>\n  <div class=\"weather-card\">\n    <div class=\"card-header\">\n      <div class=\"card-header-overlay\"></div>\n      <div class=\"card-header-content\">\n        <div>"
    ++ cityName
    ++ "天气预报</div>\n        <div class=\"card-date\">📆 " ++ date ++ " " ++ weekday
    ++ "</div>\n      </div>\n    </div>\n    \n    <div class=\"card-body\">\n      <div class=\"weather-item\">\n        <div class=\"weather-icon\">"
    ++ weatherIcon
    ++ "</div>\n        <div>天气：" ++ weatherDesc
    ++ "</div>\n      </div>\n      \n      <div class=\"weather-item\">\n        <div class=\"weather-icon\">🌡️</div>\n        <div>温度：<span class=\"temp\">"
    ++ temperature
    ++ "</span></div>\n      </div>\n      \n      <div class=\"weather-item\">\n        <div class=\"weather-icon\">💨</div>\n        <div>风向："
    ++ windDirection ++ " " ++ windPower
    ++ "</div>\n      </div>\n      \n      <div class=\"weather-item\">\n        <div class=\"weather-icon\">💧</div>\n        <div>湿度："
    ++ humidity ++ "%</div>\n      </div>\n  "

/-- The optional weather-alert block (source lines 430-437). -/
def weatherAlertHtml : Option String → String
  | some alrt =>
    "\n      <div class=\"weather-alert\">\n        <div class=\"weather-icon\">⚠️</div>\n        <div>"
      ++ alrt ++ "</div>\n      </div>\n    "
  | none => ""

/-- The temperature-trend section (source lines 442-449). -/
def weatherTrendSectionHtml (daily : List ForecastDay) : String :=
  "\n      <div class=\"trend-section\">\n        <div class=\"trend-title\"><span class=\"icon\">🌈</span> 温度趋势</div>\n        <div class=\"trend-chart\">\n          "
    ++ generateTemperatureTrendHTML daily
    ++ "\n        </div>\n      </div>\n    "

/-- The optional clothing-suggestion block (source lines 502-509). -/
def weatherClothingHtml (clothingSuggestion : Option String) : String :=
  if jsTruthyOpt clothingSuggestion then
    "\n      <div class=\"clothing-section\">\n        <div class=\"clothing-title\"><span class=\"icon\">👔</span> 穿衣建议</div>\n        "
      ++ formatClothingSuggestionHTML (clothingSuggestion.getD "")
      ++ "\n      </div>\n    "
  else ""

/-- The bottom image and footer (source lines 512-523). -/
def weatherBottomHtml (randomIdx : Nat) : String :=
  "\n    </div>\n    <div>\n      <img src=\"" ++ getRandomBottomImage randomIdx
    ++ "\" alt=\"\" style=\"display:block; width:100%; max-width:500px; margin:0 auto;\" />\n    </div>\n    <div class=\"footer\">\n      祝您生活愉快 ⭐\n    </div>\n  </div>\n</body>\n</html>\n  "

/-- `formatWeatherData(weatherData, clothingSuggestion)` (source lines
134-526).  External inputs of the body are parameters: the network
outcomes of the three chart generations, the three file timestamps, the
two environment variables of the chart URLs, and the random bottom-image
draw.  Returns the assembled HTML string — the head, the optional alert,
the trend section followed by the chart sections (when at least three
daily entries exist), the optional clothing block, and the bottom — or
the plain error string `"无法获取明天的天气数据"` when fewer than two daily
entries exist. -/
def formatWeatherData (weatherData : Option WeatherData) (clothingSuggestion : Option String)
    (netTemp netRain netWind : Except String Unit) (tsTemp tsRain tsWind : Nat)
    (envServerBaseUrl envPort : Option String) (randomIdx : Nat) : String :=
  match weatherData with
  | none => "无法获取明天的天气数据"
  | some wd =>
    match wd.daily with
    | none => "无法获取明天的天气数据"
    | some daily =>
      if daily.length < 2 then "无法获取明天的天气数据"
      else
        let locationCode := jsOrOpt wd.location "101190104"
        let tomorrow := (daily.get? 1).getD {}
        let cityName := jsOrOpt wd.locationName "南京江宁"
        let date := jsOr tomorrow.fxDate "明天"
        let tempChartUrl :=
          if 3 ≤ daily.length then generateTemperatureChart daily locationCode netTemp tsTemp
          else none
        let rainChartUrl :=
          if 3 ≤ daily.length then generateRainfallChart daily locationCode netRain tsRain
          else none
        let windChartUrl :=
          if 3 ≤ daily.length then generateWindChart daily locationCode netWind tsWind
          else none
        let css := weatherCss (weatherTempColor tomorrow)
          (getWeatherBackground tomorrow.textDay)
        let base := computeServerBaseUrl envServerBaseUrl envPort
        weatherHeadHtml css cityName date (getWeekdayName date)
            (getWeatherIcon tomorrow.textDay)
            (tomorrow.textDay ++ "转" ++ tomorrow.textNight)
            (tomorrow.tempMin ++ "°C ~ " ++ tomorrow.tempMax ++ "°C")
            (jsOr tomorrow.windDirDay "未知") (tomorrow.windScaleDay ++ "级")
            (jsOr tomorrow.humidity "未知")
          ++ weatherAlertHtml (generateWeatherAlert tomorrow)
          ++ (if 3 ≤ daily.length then
                weatherTrendSectionHtml daily
                  ++ String.join (chartSectionsHtml base tempChartUrl rainChartUrl windChartUrl)
              else "")
          ++ weatherClothingHtml clothingSuggestion
          ++ weatherBottomHtml randomIdx

/-! ## Command handling (`messageHandler`, `src/unnamed/part_004`) -/

/-- `getAllCities()` (`src/config/locations.js` lines 73-75): the city
keys of the directory, in order. -/
def getAllCities (dir : Directory) : List String := dir.map Prod.fst

/-- `getCityLocations(city)` (`src/config/locations.js` lines 64-67). -/
def getCityLocations (dir : Directory) (city : String) : List (String × LocEntry) :=
  (dirCity dir city).getD []

/-- JavaScript `s.replace(pat, repl)` with a global literal pattern. -/
def jsReplaceAll (s pat repl : String) : String :=
  if pat.isEmpty then s else String.intercalate repl (jsSplit s pat)

/-- `replace(/市$/, "")` and friends: strip one occurrence of a suffix. -/
def stripSuffix (s suf : String) : String :=
  if strEndsWith s suf then s.dropRight suf.length else s

/-- The line transformation `replace(/^(- .+)$/gm, "<li>$1</li>")` of
`formatCommandResponse`: wrap each line that starts with `"- "` followed
by at least one character. -/
def wrapListItems (s : String) : String :=
  String.intercalate "\n" ((jsSplit s "\n").map (fun line =>
    if strStartsWith line "- " && 3 ≤ line.length then "<li>" ++ line ++ "</li>" else line))

/-- Search for the closing `**` of `/\*\*(.+?)\*\*/`: the content must be
non-empty and newline-free (`.` does not match a newline). -/
def findStrongClose (acc : List Char) : List Char → Option (List Char × List Char)
  | c1 :: c2 :: rest =>
    if c1 = '*' && c2 = '*' && !acc.isEmpty then some (acc.reverse, rest)
    else if c1 = '\n' then none
    else findStrongClose (c1 :: acc) (c2 :: rest)
  | _ => none

/-- `replace(/\*\*(.+?)\*\*/g, "<strong>$1</strong>")`: leftmost,
shortest-content matches; an unclosed `**` is left as-is (the regex
engine advances one character). -/
def replaceStrongAux : Nat → List Char → List Char
  | 0, cs => cs
  | fuel + 1, '*' :: '*' :: rest =>
    (match findStrongClose [] rest with
     | some (content, rem) =>
       "<strong>".data ++ content ++ "</strong>".data ++ replaceStrongAux fuel rem
     | none => '*' :: replaceStrongAux fuel ('*' :: rest))
  | fuel + 1, c :: rest => c :: replaceStrongAux fuel rest
  | _ + 1, [] => []

/-- Search for the closing backtick of `` /`(.+?)`/ ``. -/
def findCodeClose (acc : List Char) : List Char → Option (List Char × List Char)
  | c :: rest =>
    if c = '`' && !acc.isEmpty then some (acc.reverse, rest)
    else if c = '\n' then none
    else findCodeClose (c :: acc) rest
  | [] => none

/-- `` replace(/`(.+?)`/g, '<code class="command">$1</code>') ``. -/
def replaceCodeAux : Nat → List Char → List Char
  | 0, cs => cs
  | fuel + 1, '`' :: rest =>
    (match findCodeClose [] rest with
     | some (content, rem) =>
       "<code class=\"command\">".data ++ content ++ "</code>".data
         ++ replaceCodeAux fuel rem
     | none => '`' :: replaceCodeAux fuel rest)
  | fuel + 1, c :: rest => c :: replaceCodeAux fuel rest
  | _ + 1, [] => []

/-- The content transformations of `formatCommandResponse` (source lines
912-927): list items, bold, inline code, then the `<ul>` wrapping when a
list item was produced. -/
def formatContent (content : String) : String :=
  let c1 := wrapListItems content
  let c2 := String.mk (replaceStrongAux c1.data.length c1.data)
  let c3 := String.mk (replaceCodeAux c2.data.length c2.data)
  if jsIncludes c3 "<li>" then
    let c4 := jsReplaceAll c3 "<li>" "<ul class=\"item-list\"><li>"
    let c5 := jsReplaceAll c4 "</li>\n\n" "</li></ul>\n\n"
    if strEndsWith c5 "</li>" then c5.dropRight 5 ++ "</li></ul>" else c5
  else c3

/-- The CSS of `formatCommandResponse` (source lines 842-910), with the
colour and custom-style interpolations; whitespace is compacted. -/
def commandCss (mainColor bgColor borderColor customStyles : String) : String :=
  String.intercalate "\n    " [
    "body \x7b font-family: \"PingFang SC\", \"Hiragino Sans GB\", \"Microsoft YaHei\", sans-serif; color: #333; margin: 0; padding: 0; line-height: 1.6; \x7d",
    ".command-card \x7b border-radius: 15px; overflow: hidden; box-shadow: 0 4px 12px rgba(0, 0, 0, 0.1); margin: 10px 0; background-color: #fff; \x7d",
    ".card-header \x7b background: " ++ mainColor ++ "; color: white; padding: 15px; font-size: 18px; font-weight: bold; text-align: center; display: flex; align-items: center; justify-content: center; \x7d",
    ".card-header .icon \x7b margin-right: 10px; font-size: 22px; \x7d",
    ".card-body \x7b padding: 20px; background-color: " ++ bgColor ++ "; border-left: 1px solid " ++ borderColor ++ "; border-right: 1px solid " ++ borderColor ++ "; \x7d",
    ".highlight \x7b background-color: rgba(255, 255, 0, 0.2); padding: 2px 4px; border-radius: 3px; \x7d",
    ".command \x7b background-color: rgba(0, 0, 0, 0.05); padding: 8px 12px; border-radius: 5px; font-family: monospace; margin: 10px 0; display: inline-block; \x7d",
    ".item-list \x7b padding-left: 20px; \x7d",
    ".item-list li \x7b margin-bottom: 8px; \x7d",
    ".footer \x7b text-align: center; color: #999; font-size: 12px; padding: 10px; background-color: #f9f9f9; border-radius: 0 0 15px 15px; border-bottom: 1px solid " ++ borderColor ++ "; border-left: 1px solid " ++ borderColor ++ "; border-right: 1px solid " ++ borderColor ++ "; \x7d",
    customStyles]

/-- `formatCommandResponse(title, content, icon, type, customStyles)`
(source lines 806-956): colour scheme by response type, content
transformations, and the command-card HTML shell. -/
def formatCommandResponse (title content icon type customStyles : String) : String :=
  let colors : String × String × String :=
    if type = "success" then ("#28a745", "#f0fff4", "#c3e6cb")
    else if type = "warning" then ("#ffc107", "#fff9e6", "#ffeeba")
    else if type = "error" then ("#dc3545", "#fff2f0", "#f5c6cb")
    else ("#3498db", "#f0f8ff", "#bee5eb")
  let iconShown := jsOr icon
    (if type = "success" then "✅"
     else if type = "warning" then "⚠️"
     else if type = "error" then "❌" else "ℹ️")
  let css := commandCss colors.1 colors.2.1 colors.2.2 customStyles
  let formattedContent := formatContent content
  "<!DOCTYPE html>\n<html>\n<head>\n  <meta charset=\"UTF-8\">\n  <meta name=\"viewport\" content=\"width=device-width, initial-scale=1.0\">\n  <style>"
    ++ css
    ++ "</style>\n</head>\n<body>\n  <div class=\"command-card\">\n    <div class=\"card-header\">\n      <span class=\"icon\">"
    ++ iconShown ++ "</span>\n      <span>" ++ title
    ++ "</span>\n    </div>\n    <div class=\"card-body\">\n      <div class=\"content-section\">\n"
    ++ formattedContent
    ++ "\n      </div>\n    </div>\n    <div class=\"footer\">\n      天气助手 - 随时为您服务\n    </div>\n  </div>\n</body>\n</html>"

/-- Model of `\s*(.+)$` applied after a command's `[：:]` separator: the
`\s*` prefix is tried greedily and backtracked; the capture must be
non-empty and newline-free. -/
def matchDotPlus (cs : List Char) : Option String :=
  let pmax := (cs.takeWhile jsWs).length
  (List.range (pmax + 1)).findSome? (fun j =>
    let p := pmax - j
    let b := cs.drop p
    if !b.isEmpty && !b.contains '\n' then some (String.mk b) else none)

/-- Model of `[：:]\s*(.+)$` applied to the text following a command
prefix (used by 查看城市详情 and 查看城市). -/
def matchColonArg (rest : String) : Option String :=
  match rest.data with
  | c :: cs => if c = '：' || c = ':' then matchDotPlus cs else none
  | [] => none

/-- Inner step of `matchDotPlusWsDotPlus`: given the text after the first
group, find the `\s+` separator (greedy, backtracked) and the second
group (non-empty, newline-free). -/
def matchWsThenRest (cs : List Char) : Option String :=
  let wmax := (cs.takeWhile jsWs).length
  (List.range wmax).findSome? (fun j =>
    let k := wmax - j
    let b := cs.drop k
    if !b.isEmpty && !b.contains '\n' then some (String.mk b) else none)

/-- Model of `\s*(.+?)\s+(.+)$`: leading whitespace (greedy, backtracked),
a shortest non-empty newline-free first group, whitespace, and a
non-empty newline-free second group reaching the end. -/
def matchDotPlusWsDotPlus (cs : List Char) : Option (String × String) :=
  let pmax := (cs.takeWhile jsWs).length
  (List.range (pmax + 1)).findSome? (fun j =>
    let p := pmax - j
    let t := cs.drop p
    (List.range t.length).findSome? (fun i0 =>
      let a := t.take (i0 + 1)
      if a.contains '\n' then none
      else
        match matchWsThenRest (t.drop (i0 + 1)) with
        | some b => some (String.mk a, b)
        | none => none))

/-- Model of `^设置地区[：:]\s*(.+?)\s+(.+)$` (source line 22), applied to
the text after the `设置地区` prefix. -/
def matchSetLocationArgs (rest : String) : Option (String × String) :=
  match rest.data with
  | c :: cs => if c = '：' || c = ':' then matchDotPlusWsDotPlus cs else none
  | [] => none

/-- Model of `^设置推送时间[：:]\s*(\d{1,2}:\d{2})$` (source line 729),
applied to the text after the `设置推送时间` prefix. -/
def matchSetPushTimeArg (rest : String) : Option String :=
  match rest.data with
  | c :: cs =>
    if c = '：' || c = ':' then
      let t := cs.dropWhile jsWs
      match t with
      | [a, b, x, y] =>
        if isDigitChar a && b = ':' && isDigitChar x && isDigitChar y
        then some (String.mk t) else none
      | [a, b, x, y, z] =>
        if isDigitChar a && isDigitChar b && x = ':' && isDigitChar y && isDigitChar z
        then some (String.mk t) else none
      | _ => none
    else none
  | [] => none

/-- `handleSetLocation(message, uid)` (source lines 20-88).  The store
call `setUserLocationPreference` is wrapped in an asynchronous error
handler in the source, so the un-awaited Promise it returns is truthy and
the success branch is always taken; the file state is updated as the
store computes it. -/
def handleSetLocation (dir : Directory) (doc? : Option PrefDoc)
    (message uid : String) : String × Option PrefDoc :=
  match (if strStartsWith message "设置地区"
         then matchSetLocationArgs (message.drop 4) else none) with
  | none =>
    (formatCommandResponse "格式错误"
      "格式错误！\n\n请使用以下格式设置地区：\n`设置地区：城市 区县`\n\n例如：`设置地区：北京 朝阳`"
      "⚠️" "warning" "", doc?)
  | some (cityRaw, districtRaw) =>
    let city := stripSuffix cityRaw "市"
    let district := stripSuffix (stripSuffix districtRaw "区") "县"
    if !(isLocationValidCD dir city district) then
      let suggestedCities := (getAllCities dir).take 10
      (formatCommandResponse "地区未找到"
        ("未找到 **" ++ city ++ district
          ++ "**\n\n请检查城市和区县名称是否正确。\n\n**热门城市**：\n"
          ++ String.intercalate "、" suggestedCities
          ++ "\n\n更多城市请使用`地区列表`命令查看")
        "🔍" "warning" "", doc?)
    else
      match getLocationCode dir city district with
      | some locationCode =>
        let r := setUserLocationPreference dir doc? uid locationCode
        (formatCommandResponse "地区设置成功"
          ("您的地区已成功设置为 **" ++ city ++ district
            ++ "**\n\n系统将根据此地区为您提供天气预报服务。")
          "✅" "success" "", r.1)
      | none =>
        -- unreachable once the validity check has passed
        (formatCommandResponse "地区设置成功"
          ("您的地区已成功设置为 **" ++ city ++ district
            ++ "**\n\n系统将根据此地区为您提供天气预报服务。")
          "✅" "success" "", doc?)

/-- The hard-coded candidate list of `handleListLocations` (source lines
96-112). -/
def topCityCandidates : List String :=
  ["北京", "上海", "广州", "深圳", "南京", "杭州", "重庆", "成都", "武汉",
   "西安", "苏州", "天津", "长沙", "郑州", "青岛"]

/-- The custom styles of `handleListLocations` (source lines 130-161),
compacted. -/
def listLocationsStyles : String :=
  String.intercalate "\n    " [
    ".city-grid \x7b display: grid; grid-template-columns: repeat(3, 1fr); gap: 10px; margin: 15px 0; \x7d",
    ".city-item \x7b background-color: #f0f8ff; border: 1px solid #d0e6ff; border-radius: 8px; padding: 10px; text-align: center; font-weight: bold; color: #2c3e50; box-shadow: 0 2px 4px rgba(0, 0, 0, 0.05); \x7d",
    ".city-item:hover \x7b background-color: #e0f0ff; \x7d",
    ".city-tips \x7b background-color: #f9f9f9; border-radius: 8px; padding: 12px 15px; margin-top: 15px; font-size: 14px; line-height: 1.5; \x7d",
    ".city-tips p \x7b margin: 8px 0; \x7d"]

/-- `handleListLocations()` (source lines 94-170). -/
def handleListLocations (dir : Directory) : String :=
  let cities := getAllCities dir
  let topCities := topCityCandidates.filter (fun city => cities.contains city)
  let content :=
    "以下是热门城市列表：\n\n<div class=\"city-grid\">\n  "
      ++ String.join (topCities.map (fun city =>
           "<div class=\"city-item\">" ++ city ++ "</div>"))
      ++ "\n</div>\n\n<div class=\"city-tips\">\n  <p>如需查看更多城市，请发送以下命令：</p>\n  <p><code>查看城市：省份名</code>（例如：<code>查看城市：江苏</code>）</p>\n  <p><code>查看城市详情：城市名</code>（例如：<code>查看城市详情：南京</code>）</p>\n  <p>设置地区的格式为：<code>设置地区：城市 区县</code></p>\n  <p>例如：<code>设置地区：南京 江宁</code></p>\n</div>"
  formatCommandResponse "热门城市列表" content "🏙️" "info" listLocationsStyles

/-- The custom styles of `handleCityDetail` (source lines 204-226),
compacted. -/
def cityDetailStyles : String :=
  String.intercalate "\n    " [
    ".district-grid \x7b display: grid; grid-template-columns: repeat(3, 1fr); gap: 10px; margin: 15px 0; \x7d",
    ".district-item \x7b background-color: #f5f5f5; border: 1px solid #e0e0e0; border-radius: 6px; padding: 8px; text-align: center; color: #333; \x7d",
    ".usage-tip \x7b background-color: #f0f8ff; border-left: 3px solid #3498db; padding: 10px 15px; margin-top: 15px; font-size: 14px; \x7d"]

/-- `handleCityDetail(cityName)` (source lines 177-235). -/
def handleCityDetail (dir : Directory) (cityName : String) : String :=
  let cities := getAllCities dir
  match cities.find? (fun c => c = cityName || jsIncludes c cityName) with
  | none =>
    formatCommandResponse "城市未找到"
      ("未找到城市\"" ++ cityName
        ++ "\"。\n\n请检查城市名称是否正确，或使用`地区列表`查看所有支持的城市。")
      "🔍" "warning" ""
  | some city =>
    let districts := (getCityLocations dir city).map Prod.fst
    let content :=
      city ++ "的区县列表：\n\n<div class=\"district-grid\">\n  "
        ++ String.join (districts.map (fun district =>
             "<div class=\"district-item\">" ++ district ++ "</div>"))
        ++ "\n</div>\n\n<div class=\"usage-tip\">\n  设置此地区请使用：<code>设置地区："
        ++ city ++ " 区县名</code>\n</div>"
    formatCommandResponse (city ++ "区县列表") content "🏙️" "info" cityDetailStyles

/-- The matchers of the `provinces` table of `handleProvinceDetail`
(source lines 244-626). -/
inductive ProvMatcher where
  | exact (n : String)
  | includesAny (ns : List String)
  | includesOne (n : String)
  deriving Repr, DecidableEq

/-- Apply a province matcher to one city name, as the source's filter
callbacks do. -/
def provMatch : ProvMatcher → String → Bool
  | .exact n, c => c = n
  | .includesAny ns, c => ns.any (fun city => jsIncludes c city)
  | .includesOne n, c => jsIncludes c n

/-- The `provinces` table (source lines 244-626), in key order. -/
def provincesTable : List (String × ProvMatcher) :=
  [("北京", .exact "北京"), ("上海", .exact "上海"), ("天津", .exact "天津"),
   ("重庆", .exact "重庆"),
   ("河北", .includesAny ["石家庄", "唐山", "秦皇岛", "邯郸", "邢台", "保定",
     "张家口", "承德", "沧州", "廊坊", "衡水"]),
   ("山西", .includesAny ["太原", "大同", "阳泉", "长治", "晋城", "朔州", "晋中",
     "运城", "忻州", "临汾", "吕梁"]),
   ("辽宁", .includesAny ["沈阳", "大连", "鞍山", "抚顺", "本溪", "丹东", "锦州",
     "营口", "阜新", "辽阳", "盘锦", "铁岭", "朝阳", "葫芦岛"]),
   ("吉林", .includesAny ["长春", "吉林", "四平", "辽源", "通化", "白山", "松原",
     "白城"]),
   ("黑龙江", .includesAny ["哈尔滨", "齐齐哈尔", "鸡西", "鹤岗", "双鸭山", "大庆",
     "伊春", "佳木斯", "七台河", "牡丹江", "黑河", "绥化"]),
   ("江苏", .includesAny ["南京", "无锡", "徐州", "常州", "苏州", "南通", "连云港",
     "淮安", "盐城", "扬州", "镇江", "泰州", "宿迁"]),
   ("浙江", .includesAny ["杭州", "宁波", "温州", "嘉兴", "湖州", "绍兴", "金华",
     "衢州", "舟山", "台州", "丽水"]),
   ("安徽", .includesAny ["合肥", "芜湖", "蚌埠", "淮南", "马鞍山", "淮北", "铜陵",
     "安庆", "黄山", "阜阳", "宿州", "滁州", "六安", "宣城", "池州", "亳州"]),
   ("福建", .includesAny ["福州", "厦门", "莆田", "三明", "泉州", "漳州", "南平",
     "龙岩", "宁德"]),
   ("江西", .includesAny ["南昌", "景德镇", "萍乡", "九江", "新余", "鹰潭", "赣州",
     "吉安", "宜春", "抚州", "上饶"]),
   ("山东", .includesAny ["济南", "青岛", "淄博", "枣庄", "东营", "烟台", "潍坊",
     "济宁", "泰安", "威海", "日照", "临沂", "德州", "聊城", "滨州", "菏泽"]),
   ("河南", .includesAny ["郑州", "开封", "洛阳", "平顶山", "安阳", "鹤壁", "新乡",
     "焦作", "濮阳", "许昌", "漯河", "三门峡", "南阳", "商丘", "信阳", "周口",
     "驻马店", "济源"]),
   ("湖北", .includesAny ["武汉", "黄石", "十堰", "宜昌", "襄阳", "鄂州", "荆门",
     "孝感", "荆州", "黄冈", "咸宁", "随州"]),
   ("湖南", .includesAny ["长沙", "株洲", "湘潭", "衡阳", "邵阳", "岳阳", "常德",
     "张家界", "益阳", "郴州", "永州", "怀化", "娄底"]),
   ("广东", .includesAny ["广州", "韶关", "深圳", "珠海", "汕头", "佛山", "江门",
     "湛江", "茂名", "肇庆", "惠州", "梅州", "汕尾", "河源", "阳江", "清远",
     "东莞", "中山", "潮州", "揭阳", "云浮"]),
   ("广西", .includesAny ["南宁", "柳州", "桂林", "梧州", "北海", "防城港", "钦州",
     "贵港", "玉林", "百色", "贺州", "河池", "来宾", "崇左"]),
   ("海南", .includesAny ["海口", "三亚", "三沙", "儋州"]),
   ("四川", .includesAny ["成都", "自贡", "攀枝花", "泸州", "德阳", "绵阳", "广元",
     "遂宁", "内江", "乐山", "南充", "眉山", "宜宾", "广安", "达州", "雅安",
     "巴中", "资阳"]),
   ("贵州", .includesAny ["贵阳", "六盘水", "遵义", "安顺", "毕节", "铜仁"]),
   ("云南", .includesAny ["昆明", "曲靖", "玉溪", "保山", "昭通", "丽江", "普洱",
     "临沧"]),
   ("西藏", .includesAny ["拉萨", "日喀则", "昌都", "林芝", "山南", "那曲", "阿里"]),
   ("陕西", .includesAny ["西安", "铜川", "宝鸡", "咸阳", "渭南", "延安", "汉中",
     "榆林", "安康", "商洛"]),
   ("甘肃", .includesAny ["兰州", "嘉峪关", "金昌", "白银", "天水", "武威", "张掖",
     "平凉", "酒泉", "庆阳", "定西", "陇南"]),
   ("青海", .includesAny ["西宁", "海东"]),
   ("宁夏", .includesAny ["银川", "石嘴山", "吴忠", "固原", "中卫"]),
   ("新疆", .includesAny ["乌鲁木齐", "克拉玛依", "吐鲁番", "哈密"]),
   ("香港", .includesOne "香港"), ("澳门", .includesOne "澳门"),
   ("台湾", .includesOne "台湾")]

/-- The custom styles of `handleProvinceDetail` (source lines 673-696),
compacted. -/
def provinceStyles : String :=
  String.intercalate "\n    " [
    ".city-grid \x7b display: grid; grid-template-columns: repeat(3, 1fr); gap: 10px; margin: 15px 0; \x7d",
    ".city-item \x7b background-color: #f0f8ff; border: 1px solid #d0e6ff; border-radius: 8px; padding: 10px; text-align: center; font-weight: bold; color: #2c3e50; \x7d",
    ".usage-tip \x7b background-color: #f0f8ff; border-left: 3px solid #3498db; padding: 10px 15px; margin-top: 15px; font-size: 14px; \x7d"]

/-- `handleProvinceDetail(provinceName)` (source lines 242-705): exact
key match, then fuzzy key match, then the province's city filter over
the directory's cities. -/
def handleProvinceDetail (dir : Directory) (provinceName0 : String) : String :=
  let resolved : Option String :=
    if (provincesTable.find? (fun p => p.1 = provinceName0)).isSome then some provinceName0
    else (provincesTable.find? (fun p =>
      jsIncludes p.1 provinceName0 || jsIncludes provinceName0 p.1)).map Prod.fst
  match resolved with
  | none =>
    formatCommandResponse "省份未找到"
      ("未找到省份\"" ++ provinceName0 ++ "\"。\n\n支持的省份有：\n"
        ++ String.intercalate "、" (provincesTable.map Prod.fst)
        ++ "\n\n请检查省份名称是否正确。")
      "🔍" "warning" ""
  | some provinceName =>
    let allCities := getAllCities dir
    let provinceCities :=
      match (provincesTable.find? (fun p => p.1 = provinceName)).map Prod.snd with
      | some m => allCities.filter (provMatch m)
      | none => []
    if provinceCities.isEmpty then
      formatCommandResponse "数据未找到"
        ("未找到" ++ provinceName
          ++ "的城市数据。\n\n请尝试查看其他省份，或使用`地区列表`查看所有支持的城市。")
        "🔍" "warning" ""
    else
      let content :=
        provinceName ++ "的城市列表：\n\n<div class=\"city-grid\">\n  "
          ++ String.join (provinceCities.map (fun city =>
               "<div class=\"city-item\">" ++ city ++ "</div>"))
          ++ "\n</div>\n\n<div class=\"usage-tip\">\n  要查看特定城市的区县列表，请发送：<code>查看城市详情：城市名</code>\n  <br>例如：<code>查看城市详情："
          ++ provinceCities.headD "" ++ "</code>\n</div>"
      formatCommandResponse (provinceName ++ "城市列表") content "🏙️" "info" provinceStyles

/-- `handleGetCurrentLocation(uid)` (source lines 712-720).  In the
source the store call returns an un-awaited Promise, so `location.name`
is `undefined` at runtime; here the intended synchronous value — with a
missing name rendering as `"undefined"` — is used, and the store's lazy
backfill write is threaded through. -/
def handleGetCurrentLocation (dir : Directory) (cfg : DefaultLocationConfig)
    (doc? : Option PrefDoc) (uid : String) : String × Option PrefDoc :=
  let r := getUserLocationPreference dir cfg doc? uid
  (formatCommandResponse "当前地区信息"
     ("您当前设置的地区是：**" ++ r.1.name.getD "undefined"
       ++ "**\n\n如需修改，请使用`设置地区：城市 区县`命令\n例如：`设置地区：北京 朝阳`")
     "📍" "info" "", some r.2)

/-- `handleSetPushTime(message, uid)` (source lines 728-765).  As with
`handleSetLocation`, the store call returns a truthy un-awaited Promise,
so once the message regex matches the success branch is always taken
(even when the store itself rejects the time); the file state is the one
the store computes. -/
def handleSetPushTime (doc? : Option PrefDoc) (message uid : String) :
    String × Option PrefDoc :=
  match (if strStartsWith message "设置推送时间"
         then matchSetPushTimeArg (message.drop 6) else none) with
  | none =>
    (formatCommandResponse "格式错误"
      "格式错误！\n\n请使用以下格式设置推送时间：\n`设置推送时间：小时:分钟`\n\n例如：`设置推送时间：8:30` 或 `设置推送时间：20:00`"
      "⚠️" "warning" "", doc?)
  | some time =>
    let r := updatePushTime doc? uid time
    (formatCommandResponse "推送时间已设置"
      ("您的天气推送时间已成功设置为 **" ++ time
        ++ "**\n\n系统将在每天的这个时间为您推送天气预报。")
      "⏰" "success" "", r.1)

/-- `handleGetPushTime(uid)` (source lines 772-812): read the preference
file directly; default `"20:00"` when the file, the record, or a truthy
`pushTime` is missing. -/
def handleGetPushTime (doc? : Option PrefDoc) (uid : String) : String :=
  let time :=
    match doc? with
    | some doc =>
      match lookupUser doc uid with
      | some rec =>
        match rec.pushTime with
        | some t => if jsTruthy t then t else "20:00"
        | none => "20:00"
      | none => "20:00"
    | none => "20:00"
  formatCommandResponse "推送时间信息"
    ("您当前的天气推送时间设置为：**" ++ time
      ++ "**\n\n系统将在每天的这个时间为您推送天气预报。\n\n如需修改，请使用`设置推送时间：小时:分钟`命令\n例如：`设置推送时间：8:30` 或 `设置推送时间：20:00`")
    "⏰" "info" ""

/-- The fixed help content of `handleHelp` (source lines 819-869),
whitespace compacted. -/
def helpContent : String :=
  String.intercalate "\n" [
    "",
    "<div class=\"help-container\">",
    "  <div class=\"cmd-group location\">",
    "    <span class=\"group-icon\">📍</span>",
    "    <span class=\"group-title\">地区相关</span>",
    "    <div class=\"group-items\">",
    "      <div class=\"cmd-tag\">地区列表</div>",
    "      <div class=\"cmd-tag\">查看城市：<span class=\"param\">省份名</span></div>",
    "      <div class=\"cmd-tag\">查看城市详情：<span class=\"param\">城市名</span></div>",
    "      <div class=\"cmd-tag\">设置地区：<span class=\"param\">城市 区县</span></div>",
    "      <div class=\"cmd-tag\">当前地区</div>",
    "    </div>",
    "  </div>",
    "  <div class=\"cmd-group time\">",
    "    <span class=\"group-icon\">⏰</span>",
    "    <span class=\"group-title\">推送时间</span>",
    "    <div class=\"group-items\">",
    "      <div class=\"cmd-tag\">查看推送时间</div>",
    "      <div class=\"cmd-tag\">设置推送时间：<span class=\"param\">HH:mm</span></div>",
    "    </div>",
    "  </div>",
    "  <div class=\"cmd-group other\">",
    "    <span class=\"group-icon\">ℹ️</span>",
    "    <span class=\"group-title\">其他命令</span>",
    "    <div class=\"group-items\">",
    "      <div class=\"cmd-tag\">帮助</div>",
    "    </div>",
    "  </div>",
    "  <div class=\"examples\">",
    "    <div class=\"example-title\">使用示例：</div>",
    "    <div class=\"example-row\">",
    "      <span class=\"example-cmd\">查看城市：江苏</span>",
    "      <span class=\"example-desc\">列出江苏省的所有城市</span>",
    "    </div>",
    "    <div class=\"example-row\">",
    "      <span class=\"example-cmd\">查看城市详情：南京</span>",
    "      <span class=\"example-desc\">查看南京市的所有区县</span>",
    "    </div>",
    "    <div class=\"example-row\">",
    "      <span class=\"example-cmd\">设置地区：南京 江宁</span>",
    "      <span class=\"example-desc\">将地区设为南京江宁</span>",
    "    </div>",
    "    <div class=\"example-row\">",
    "      <span class=\"example-cmd\">设置推送时间：8:30</span>",
    "      <span class=\"example-desc\">设置每天8:30推送天气</span>",
    "    </div>",
    "  </div>",
    "</div>"]

/-- The custom styles of `handleHelp` (source lines 872-969), compacted. -/
def helpStyles : String :=
  String.intercalate "\n    " [
    ".help-container \x7b background: white; border-radius: 12px; padding: 12px; box-shadow: 0 2px 8px rgba(0,0,0,0.08); \x7d",
    ".cmd-group \x7b display: flex; flex-wrap: wrap; align-items: center; margin-bottom: 10px; padding-bottom: 8px; border-bottom: 1px solid #eee; \x7d",
    ".cmd-group:last-of-type \x7b margin-bottom: 8px; border-bottom: none; \x7d",
    ".location .group-icon, .location .group-title \x7b color: #3498db; \x7d",
    ".time .group-icon, .time .group-title \x7b color: #e67e22; \x7d",
    ".other .group-icon, .other .group-title \x7b color: #27ae60; \x7d",
    ".group-icon \x7b font-size: 15px; margin-right: 4px; \x7d",
    ".group-title \x7b font-weight: bold; margin-right: 8px; font-size: 14px; min-width: 55px; \x7d",
    ".group-items \x7b display: flex; flex-wrap: wrap; flex: 1; gap: 2px; \x7d",
    ".cmd-tag \x7b background: #f5f7fa; border-radius: 4px; padding: 3px 6px; margin: 2px; font-size: 12px; white-space: nowrap; border-left: 2px solid; \x7d",
    ".location .cmd-tag \x7b border-left-color: #3498db; \x7d",
    ".time .cmd-tag \x7b border-left-color: #e67e22; \x7d",
    ".other .cmd-tag \x7b border-left-color: #27ae60; \x7d",
    ".param \x7b color: #e74c3c; font-style: italic; \x7d",
    ".examples \x7b background: #f8f9fa; border-radius: 6px; padding: 8px; font-size: 11px; \x7d",
    ".example-title \x7b font-weight: bold; margin-bottom: 5px; color: #7f8c8d; \x7d",
    ".example-row \x7b display: flex; margin-bottom: 4px; align-items: center; \x7d",
    ".example-row:last-child \x7b margin-bottom: 0; \x7d",
    ".example-cmd \x7b background: #f0f0f0; padding: 2px 5px; border-radius: 3px; margin-right: 6px; color: #333; font-family: monospace; \x7d",
    ".example-desc \x7b color: #7f8c8d; font-size: 11px; \x7d"]

/-- `handleHelp()` (source lines 818-972). -/
def handleHelp : String :=
  formatCommandResponse "使用帮助" helpContent "📖" "info" helpStyles

/-- The `{content, isHtml}` reply object of `handleMessage`. -/
structure MessageResponse where
  content : String
  isHtml : Bool
  deriving Repr, DecidableEq

/-- `handleMessage(message, uid)` (source lines 980-1068): dispatch over
the fixed command patterns, falling through to the `未识别的命令` card.
Every branch sets `isHtml = true`, and every handler returns a formatted
card — the function never throws.  The file state after the handled
command is returned alongside. -/
def handleMessage (dir : Directory) (cfg : DefaultLocationConfig)
    (doc? : Option PrefDoc) (message uid : String) : MessageResponse × Option PrefDoc :=
  if strStartsWith message "设置地区" then
    let r := handleSetLocation dir doc? message uid
    ({ content := r.1, isHtml := true }, r.2)
  else if message = "地区列表" then
    ({ content := handleListLocations dir, isHtml := true }, doc?)
  else if strStartsWith message "查看城市详情" then
    match matchColonArg (message.drop 6) with
    | some arg => ({ content := handleCityDetail dir (jsTrim arg), isHtml := true }, doc?)
    | none =>
      ({ content := formatCommandResponse "格式错误"
           "格式错误！\n\n请使用以下格式查看城市详情：\n`查看城市详情：城市名`\n\n例如：`查看城市详情：南京`"
           "⚠️" "warning" "", isHtml := true }, doc?)
  else if strStartsWith message "查看城市" then
    match matchColonArg (message.drop 4) with
    | some arg => ({ content := handleProvinceDetail dir (jsTrim arg), isHtml := true }, doc?)
    | none =>
      ({ content := formatCommandResponse "格式错误"
           "格式错误！\n\n请使用以下格式查看省份城市：\n`查看城市：省份名`\n\n例如：`查看城市：江苏`"
           "⚠️" "warning" "", isHtml := true }, doc?)
  else if message = "当前地区" then
    let r := handleGetCurrentLocation dir cfg doc? uid
    ({ content := r.1, isHtml := true }, r.2)
  else if strStartsWith message "设置推送时间" then
    let r := handleSetPushTime doc? message uid
    ({ content := r.1, isHtml := true }, r.2)
  else if message = "查看推送时间" then
    ({ content := handleGetPushTime doc? uid, isHtml := true }, doc?)
  else if message = "帮助" then
    ({ content := handleHelp, isHtml := true }, doc?)
  else
    ({ content := formatCommandResponse "未识别的命令"
         "抱歉，我无法理解您的命令。\n\n请发送`帮助`查看支持的命令列表。"
         "❓" "warning" "", isHtml := true }, doc?)

/-- No dispatch pattern of `handleMessage` applies to the message. -/
def matchesNoCommand (message : String) : Bool :=
  !strStartsWith message "设置地区" && message != "地区列表"
    && !strStartsWith message "查看城市详情" && !strStartsWith message "查看城市"
    && message != "当前地区" && !strStartsWith message "设置推送时间"
    && message != "查看推送时间" && message != "帮助"

/-- The fall-through reply of `handleMessage` for an unrecognized
command. -/
def unrecognizedCommandHtml : String :=
  formatCommandResponse "未识别的命令"
    "抱歉，我无法理解您的命令。\n\n请发送`帮助`查看支持的命令列表。"
    "❓" "warning" ""

/-! ## Library of facts about the store operations -/

theorem find?_update (l : List (String × UserRecord)) (u v : String) (rec : UserRecord) :
    ((l.map (fun p => if p.1 = u then (u, rec) else p)).find? (fun p => p.1 = v)) =
      if v = u then (l.find? (fun p => p.1 = u)).map (fun _ => (u, rec))
      else l.find? (fun p => p.1 = v) := by
  induction l with
  | nil => by_cases h : v = u <;> simp [h]
  | cons p t ih =>
    simp only [List.map_cons]
    by_cases hpu : p.1 = u
    · by_cases hvu : v = u
      · subst hvu
        rw [if_pos hpu, if_pos rfl]
        rw [List.find?_cons_of_pos _ (by simp), List.find?_cons_of_pos _ (by simp [hpu])]
        simp
      · rw [if_pos hpu, if_neg hvu]
        rw [List.find?_cons_of_neg _ (by simp [Ne.symm hvu]),
            List.find?_cons_of_neg _ (by simp [hpu]; exact fun h => hvu h.symm)]
        simpa [hvu] using ih
    · by_cases hvu : v = u
      · subst hvu
        rw [if_neg hpu, if_pos rfl]
        rw [List.find?_cons_of_neg _ (by simp [hpu]), List.find?_cons_of_neg _ (by simp [hpu])]
        simpa using ih
      · by_cases hpv : p.1 = v
        · rw [if_neg hpu, if_neg hvu]
          rw [List.find?_cons_of_pos _ (by simp [hpv]), List.find?_cons_of_pos _ (by simp [hpv])]
        · rw [if_neg hpu, if_neg hvu]
          rw [List.find?_cons_of_neg _ (by simp [hpv]), List.find?_cons_of_neg _ (by simp [hpv])]
          simpa [hvu] using ih

/-- `setUser` updates the entry of `u` and leaves every other entry
unchanged. -/
theorem lookupUser_setUser (doc : PrefDoc) (u v : String) (rec : UserRecord) :
    lookupUser (setUser doc u rec) v = if v = u then some rec else lookupUser doc v := by
  unfold lookupUser setUser
  by_cases hfind : (doc.users.find? (fun p => p.1 = u)).isSome
  · rw [if_pos hfind]
    show ((doc.users.map _).find? _).map _ = _
    rw [find?_update]
    by_cases hvu : v = u
    · rcases h : doc.users.find? (fun p => p.1 = u) with _ | r
      · rw [h] at hfind; simp at hfind
      · simp [hvu, h]
    · simp [hvu]
  · rw [if_neg hfind]
    show ((doc.users ++ [(u, rec)]).find? _).map _ = _
    rw [List.find?_append]
    by_cases hvu : v = u
    · subst hvu
      rw [Option.not_isSome_iff_eq_none] at hfind
      rw [hfind, Option.none_or, List.find?_cons_of_pos _ (by simp)]
      simp
    · rcases h : doc.users.find? (fun p => p.1 = v) with _ | r <;>
        simp [h, List.find?, hvu, Ne.symm hvu]

/-- Padding a single-digit-hour time with a leading `0` yields a string
accepted by the full `HH:mm` pattern. -/
theorem timePattern_zero_pad (time : String) (h : singleDigitTimePattern time = true) :
    timePattern ("0" ++ time) = true := by
  have hdata : ("0" ++ time).data = '0' :: time.data := by cases time; rfl
  unfold singleDigitTimePattern at h
  unfold timePattern
  rw [hdata]
  rcases htd : time.data with _ | ⟨c1, _ | ⟨c2, _ | ⟨c3, _ | ⟨c4, _ | ⟨c5, rest⟩⟩⟩⟩⟩ <;>
      rw [htd] at h <;> simp_all [isDigitChar]

/-! ## Claim theorems -/

/-- C2: in one run of the push loop of `getWeatherAndPush` over a list of
uids, the per-user pipeline is attempted for every uid of the list, in
order, regardless of which pipelines fail: a thrown error for one uid is
caught inside the loop body and never prevents the attempt for any
subsequent uid, and the loop always completes with one recorded outcome
per uid. -/
theorem c2_push_loop_isolation (pipeline : String → Except String Unit)
    (uids : List String) :
    (getWeatherAndPush pipeline uids).map Prod.fst = uids ∧
    (getWeatherAndPush pipeline uids).length = uids.length ∧
    ∀ uid r, (uid, r) ∈ getWeatherAndPush pipeline uids → r = pipeline uid := by
  have key : getWeatherAndPush pipeline uids = uids.map (fun uid => (uid, pipeline uid)) := by
    unfold getWeatherAndPush
    suffices h : ∀ acc : List (String × Except String Unit),
        uids.foldl (fun acc uid => acc ++ [(uid, pipeline uid)]) acc
          = acc ++ uids.map (fun uid => (uid, pipeline uid)) by
      simpa using h []
    induction uids with
    | nil => intro acc; simp
    | cons u t ih => intro acc; simp [List.foldl_cons, ih]
  refine ⟨?_, ?_, ?_⟩
  · rw [key]
    have hfst : ∀ l : List String,
        List.map Prod.fst (l.map (fun uid => (uid, pipeline uid))) = l := by
      intro l
      induction l with
      | nil => rfl
      | cons u t ih => simp [ih]
    exact hfst uids
  · rw [key]; simp
  · intro uid r hmem
    rw [key] at hmem
    rcases List.mem_map.mp hmem with ⟨a, _, heq⟩
    cases heq
    rfl

/-- C3: `updatePushTime` normalizes every `"H:mm"` input (single-digit
hour, valid minutes) to `"0H:mm"` and persists it; the stored value after
any successful call matches `^([01]\d|2[0-3]):[0-5]\d$`; and every input
whose normalization does not match that pattern fails with a
`ValidationError` and does not report success. -/
theorem c3_updatePushTime_normalizes (doc? : Option PrefDoc) (uid time : String) :
    (singleDigitTimePattern time = true →
      (updatePushTime doc? uid time).2 = .ok true ∧
      ∃ doc' rec, (updatePushTime doc? uid time).1 = some doc' ∧
        lookupUser doc' uid = some rec ∧ rec.pushTime = some ("0" ++ time) ∧
        timePattern ("0" ++ time) = true) ∧
    (∀ doc' rec t', (updatePushTime doc? uid time).1 = some doc' →
      (updatePushTime doc? uid time).2 = .ok true →
      lookupUser doc' uid = some rec → rec.pushTime = some t' →
      timePattern t' = true) ∧
    (timePattern (normalizePushTime time) = false →
      ∃ msg, (updatePushTime doc? uid time).2 = .error (.validation msg) ∧
        (updatePushTime doc? uid time).2 ≠ .ok true) := by
  unfold updatePushTime
  refine ⟨?_, ?_, ?_⟩
  · intro hsingle
    have hnorm : normalizePushTime time = "0" ++ time := by
      unfold normalizePushTime; rw [if_pos hsingle]
    have hpat := timePattern_zero_pad time hsingle
    rw [hnorm]
    rw [if_neg (show ¬((!timePattern ("0" ++ time)) = true) by simp [hpat])]
    refine ⟨rfl,
      setUser (ensurePreferenceFileExists doc?) uid
        { (lookupUser (ensurePreferenceFileExists doc?) uid).getD {} with
          pushTime := some ("0" ++ time) },
      { (lookupUser (ensurePreferenceFileExists doc?) uid).getD {} with
          pushTime := some ("0" ++ time) }, rfl, ?_, rfl, hpat⟩
    rw [lookupUser_setUser]
    simp
  · intro doc' rec t' hdoc hok hlook hpt
    by_cases hpat : timePattern (normalizePushTime time)
    · simp only [hpat, Bool.not_true, Bool.false_eq_true, if_false] at hdoc hok
      injection hdoc with h
      subst h
      rw [lookupUser_setUser] at hlook
      simp only [if_pos rfl] at hlook
      injection hlook with h2
      subst h2
      have h3 : some (normalizePushTime time) = some t' := hpt
      injection h3 with h3
      subst h3
      exact hpat
    · simp only [Bool.not_eq_true] at hpat
      simp [hpat] at hok
  · intro hpat
    simp only [hpat, Bool.not_false, if_true]
    exact ⟨_, rfl, by simp⟩

/-- C6: the tomorrow-extraction of the weather pipeline fails with the
domain error `"无法获取明天的天气数据"` whenever the forecast, its `daily`
array, or a second daily entry is missing, and returns exactly the
element at index 1 of `daily` whenever at least two entries exist — it
never returns a value for a short forecast. -/
theorem c6_getTomorrowWeather_extracts (wd? : Option WeatherData) :
    ((wd? = none ∨ (∃ wd, wd? = some wd ∧ wd.daily = none) ∨
        (∃ wd ds, wd? = some wd ∧ wd.daily = some ds ∧ ds.length < 2)) →
      getTomorrowWeather wd? = .error "无法获取明天的天气数据") ∧
    (∀ wd ds, wd? = some wd → wd.daily = some ds → 2 ≤ ds.length →
      ∃ d, ds.get? 1 = some d ∧ getTomorrowWeather wd? = .ok d) := by
  constructor
  · rintro (rfl | ⟨wd, rfl, hdaily⟩ | ⟨wd, ds, rfl, hdaily, hlen⟩)
    · rfl
    · simp only [getTomorrowWeather, hdaily]
    · simp only [getTomorrowWeather, hdaily]
      rw [if_pos hlen]
  · rintro wd ds rfl hdaily hlen
    simp only [getTomorrowWeather, hdaily]
    rcases ds with _ | ⟨a, _ | ⟨b, t⟩⟩
    · simp at hlen
    · simp at hlen
    · simp

theorem c3_updatePushTime_normalizes_witness :
    (updatePushTime (some emptyPrefDoc) "u1" "9:30").2 = .ok true ∧
    (∃ msg, (updatePushTime (some emptyPrefDoc) "u1" "25:99").2 = .error (.validation msg) ∧
      (updatePushTime (some emptyPrefDoc) "u1" "25:99").2 ≠ .ok true) :=
  ⟨((c3_updatePushTime_normalizes (some emptyPrefDoc) "u1" "9:30").1 (by decide)).1,
   (c3_updatePushTime_normalizes (some emptyPrefDoc) "u1" "25:99").2.2 (by decide)⟩

theorem c6_getTomorrowWeather_extracts_witness :
    (∃ d, ([{}, { textDay := "晴" }] : List ForecastDay).get? 1 = some d ∧
      getTomorrowWeather (some { daily := some [{}, { textDay := "晴" }] }) = .ok d) ∧
    getTomorrowWeather (some { daily := some [({} : ForecastDay)] })
      = .error "无法获取明天的天气数据" :=
  ⟨(c6_getTomorrowWeather_extracts (some { daily := some [{}, { textDay := "晴" }] })).2
      _ _ rfl rfl (by decide),
   (c6_getTomorrowWeather_extracts (some { daily := some [({} : ForecastDay)] })).1
      (Or.inr (Or.inr ⟨_, _, rfl, rfl, by decide⟩))⟩

/-- `getJWTToken` when no token is cached: generate and cache. -/
theorem getJWTToken_none (nowMs : Int) (c : TokenCache) (h : c.cachedToken = none) :
    getJWTToken nowMs c =
      (generateWeatherJWT nowMs,
       { cachedToken := some (generateWeatherJWT nowMs),
         tokenExpiry := nowMs + 50 * 60 * 1000 }) := by
  unfold getJWTToken
  rw [h]
  rfl

/-- `getJWTToken` past the invalidation margin: regenerate. -/
theorem getJWTToken_stale (nowMs : Int) (c : TokenCache) (tok : JwtToken)
    (h : c.cachedToken = some tok) (hs : nowMs > c.tokenExpiry - 300000) :
    getJWTToken nowMs c =
      (generateWeatherJWT nowMs,
       { cachedToken := some (generateWeatherJWT nowMs),
         tokenExpiry := nowMs + 50 * 60 * 1000 }) := by
  unfold getJWTToken
  rw [h]
  simp [hs]

/-- `getJWTToken` before the invalidation margin: the cached token is
returned and the cache is untouched. -/
theorem getJWTToken_cached (nowMs : Int) (c : TokenCache) (tok : JwtToken)
    (h : c.cachedToken = some tok) (hs : ¬ nowMs > c.tokenExpiry - 300000) :
    getJWTToken nowMs c = (tok, c) := by
  unfold getJWTToken
  rw [h]
  simp [hs]

/-- Invariant tying the cached expiry to the nominal expiry encoded in the
cached token: whenever a token is cached, its nominal expiry (in ms) lies
at least 500 seconds beyond the cache expiry timestamp.  `getJWTToken`
establishes and preserves this. -/
def CacheInv (c : TokenCache) : Prop :=
  ∀ tok, c.cachedToken = some tok → c.tokenExpiry + 500000 ≤ tok.exp * 1000

/-- C9 (counterexample to the claim as stated): after a first call at
`t = 0` ms, the cached token's nominal expiry is at 3 570 000 ms, so the
claimed invalidation margin only starts at 3 270 000 ms; yet a call at
2 700 001 ms — well before that margin — does not return the same cached
token but regenerates a different one (the code invalidates 5 minutes
before its 50-minute cache expiry, i.e. 45 minutes after generation). -/
theorem c9_token_cache_counterexample :
    (2700001 : Int) < (getJWTToken 0 {}).1.exp * 1000 - 300000 ∧
    (getJWTToken 2700001 (getJWTToken 0 {}).2).1 ≠ (getJWTToken 0 {}).1 := by
  constructor <;> decide

/-- C9 (amended): the token cache is created lazily on first use; a
cached token is returned unchanged by every call at or before
`tokenExpiry - 5 min` (where `tokenExpiry` is 50 minutes after the
token's generation) and the token is regenerated on the next request
after that point; consequently `getJWTToken` never returns a token within
5 minutes of the nominal expiry encoded in it. -/
theorem c9_token_cache_amended (nowMs : Int) (c : TokenCache) (hc : CacheInv c) :
    CacheInv (getJWTToken nowMs c).2 ∧
    (getJWTToken nowMs c).2.cachedToken = some (getJWTToken nowMs c).1 ∧
    nowMs < (getJWTToken nowMs c).1.exp * 1000 - 300000 ∧
    (∀ tok, c.cachedToken = some tok → nowMs ≤ c.tokenExpiry - 300000 →
      (getJWTToken nowMs c).1 = tok ∧ (getJWTToken nowMs c).2 = c) := by
  have hfresh : ∀ r : JwtToken × TokenCache,
      r = (generateWeatherJWT nowMs,
           { cachedToken := some (generateWeatherJWT nowMs),
             tokenExpiry := nowMs + 50 * 60 * 1000 }) →
      CacheInv r.2 ∧ r.2.cachedToken = some r.1 ∧
        nowMs < r.1.exp * 1000 - 300000 := by
    rintro r rfl
    refine ⟨?_, rfl, ?_⟩
    · intro t ht
      simp only [Option.some.injEq] at ht
      subst ht
      unfold generateWeatherJWT
      simp only
      omega
    · unfold generateWeatherJWT
      simp only
      omega
  rcases hcase : c.cachedToken with _ | tok
  · rw [getJWTToken_none nowMs c hcase]
    refine ⟨(hfresh _ rfl).1, (hfresh _ rfl).2.1, (hfresh _ rfl).2.2, ?_⟩
    intro t ht
    exact absurd ht (by simp)
  · by_cases hstale : nowMs > c.tokenExpiry - 300000
    · rw [getJWTToken_stale nowMs c tok hcase hstale]
      refine ⟨(hfresh _ rfl).1, (hfresh _ rfl).2.1, (hfresh _ rfl).2.2, ?_⟩
      intro t ht hmargin
      omega
    · rw [getJWTToken_cached nowMs c tok hcase hstale]
      have hexp := hc tok hcase
      refine ⟨hc, by simp [hcase], by simp only; omega, ?_⟩
      intro t ht _
      injection ht with ht
      subst ht
      exact ⟨rfl, rfl⟩

theorem c9_token_cache_amended_witness :
    (getJWTToken 0 {}).2.cachedToken = some (getJWTToken 0 {}).1 ∧
    (0 : Int) < (getJWTToken 0 {}).1.exp * 1000 - 300000 := by
  have h := c9_token_cache_amended 0 {} (by intro tok ht; cases ht)
  exact ⟨h.2.1, h.2.2.1⟩

/-- C10 (counterexample to the claim as stated): when the preference file
does not exist, a `setPushTime` call whose validation fails still changes
the on-disk state, because `ensurePreferenceFileExists` creates the empty
document before validation runs. -/
theorem c10_validation_state_counterexample :
    (updatePushTime none "u1" "99:99").2
        = .error (.validation "无效的推送时间格式: 99:99") ∧
    (updatePushTime none "u1" "99:99").1 = some emptyPrefDoc ∧
    (updatePushTime none "u1" "99:99").1 ≠ none := by
  refine ⟨rfl, by decide, by decide⟩

/-- C10 (amended): both `setLocation` and `setPushTime` validate their
input before the file read-modify-write, so a call that fails with a
`ValidationError` leaves the stored user data unchanged: when the
preference file already exists it is left exactly as it was, and when it
does not exist the only effect is the creation of the empty
`{ users: {} }` document by `ensurePreferenceFileExists`. -/
theorem c10_validation_leaves_state (dir : Directory) (d : PrefDoc)
    (doc? : Option PrefDoc) (uid code time : String) :
    (∀ e, (setUserLocationPreference dir (some d) uid code).2 = .error e →
      (setUserLocationPreference dir (some d) uid code).1 = some d) ∧
    (∀ e, (updatePushTime (some d) uid time).2 = .error e →
      (updatePushTime (some d) uid time).1 = some d) ∧
    (∀ e, (setUserLocationPreference dir doc? uid code).2 = .error e →
      (setUserLocationPreference dir doc? uid code).1
        = some (ensurePreferenceFileExists doc?)) ∧
    (∀ e, (updatePushTime doc? uid time).2 = .error e →
      (updatePushTime doc? uid time).1 = some (ensurePreferenceFileExists doc?)) := by
  have hset : ∀ (st : Option PrefDoc) e,
      (setUserLocationPreference dir st uid code).2 = .error e →
      (setUserLocationPreference dir st uid code).1
        = some (ensurePreferenceFileExists st) := by
    intro st e herr
    unfold setUserLocationPreference at herr ⊢
    by_cases hv : isLocationValidCode dir code
    · rcases hinfo : getLocationInfo dir code with _ | info <;>
        simp_all
    · simp [hv]
  have hupd : ∀ (st : Option PrefDoc) e,
      (updatePushTime st uid time).2 = .error e →
      (updatePushTime st uid time).1 = some (ensurePreferenceFileExists st) := by
    intro st e herr
    unfold updatePushTime at herr ⊢
    by_cases hp : timePattern (normalizePushTime time)
    · simp [hp] at herr
    · simp [hp]
  exact ⟨fun e h => hset (some d) e h, fun e h => hupd (some d) e h,
         fun e h => hset doc? e h, fun e h => hupd doc? e h⟩

theorem c10_validation_leaves_state_witness :
    (setUserLocationPreference [] (some ⟨[("u1", { pushTime := some "08:30" })]⟩)
       "u1" "999").1 = some ⟨[("u1", { pushTime := some "08:30" })]⟩ ∧
    (updatePushTime (some ⟨[("u1", { pushTime := some "08:30" })]⟩)
       "u1" "99:99").1 = some ⟨[("u1", { pushTime := some "08:30" })]⟩ :=
  ⟨(c10_validation_leaves_state [] ⟨[("u1", { pushTime := some "08:30" })]⟩
      none "u1" "999" "99:99").1 (.validation "无效的地区代码: 999") rfl,
   (c10_validation_leaves_state [] ⟨[("u1", { pushTime := some "08:30" })]⟩
      none "u1" "999" "99:99").2.1 (.validation "无效的推送时间格式: 99:99") rfl⟩

/-- `resolvePushTime` when the preference file is missing. -/
theorem resolvePushTime_of_missing (uid : String) :
    resolvePushTime none uid = ("20:00", some ⟨[(uid, schedulerDefaultRecord)]⟩) := rfl

/-- `resolvePushTime` for a uid with no record. -/
theorem resolvePushTime_of_no_record (doc : PrefDoc) (uid : String)
    (h : lookupUser doc uid = none) :
    resolvePushTime (some doc) uid
      = ("20:00", some (setUser doc uid schedulerDefaultRecord)) := by
  simp only [resolvePushTime]
  rw [h]

/-- `resolvePushTime` for a record without a push time. -/
theorem resolvePushTime_of_pushTime_none (doc : PrefDoc) (uid : String)
    (rec : UserRecord) (h : lookupUser doc uid = some rec) (hp : rec.pushTime = none) :
    resolvePushTime (some doc) uid
      = ("20:00", some (setUser doc uid { rec with pushTime := some "20:00" })) := by
  simp only [resolvePushTime]
  rw [h]
  simp only [hp]

/-- `resolvePushTime` for a record with an empty (falsy) push time. -/
theorem resolvePushTime_of_pushTime_empty (doc : PrefDoc) (uid : String)
    (rec : UserRecord) (t : String) (h : lookupUser doc uid = some rec)
    (hp : rec.pushTime = some t) (ht : jsTruthy t = false) :
    resolvePushTime (some doc) uid
      = ("20:00", some (setUser doc uid { rec with pushTime := some "20:00" })) := by
  simp only [resolvePushTime]
  rw [h]
  simp only [hp, ht, Bool.false_eq_true, if_false]

/-- `resolvePushTime` for a record with a non-empty push time: the stored
string is used verbatim and nothing is written. -/
theorem resolvePushTime_of_pushTime_truthy (doc : PrefDoc) (uid : String)
    (rec : UserRecord) (t : String) (h : lookupUser doc uid = some rec)
    (hp : rec.pushTime = some t) (ht : jsTruthy t = true) :
    resolvePushTime (some doc) uid = (t, some doc) := by
  simp only [resolvePushTime]
  rw [h]
  simp only [hp, ht, if_true]

/-- The resolved push time of a uid only depends on that uid's record. -/
theorem resolvePushTime_fst_congr (doc doc' : PrefDoc) (v : String)
    (h : lookupUser doc' v = lookupUser doc v) :
    (resolvePushTime (some doc') v).1 = (resolvePushTime (some doc) v).1 := by
  rcases hx : lookupUser doc v with _ | rec
  · rw [resolvePushTime_of_no_record doc' v (h.trans hx),
        resolvePushTime_of_no_record doc v hx]
  · rcases hpt : rec.pushTime with _ | t
    · rw [resolvePushTime_of_pushTime_none doc' v rec (h.trans hx) hpt,
          resolvePushTime_of_pushTime_none doc v rec hx hpt]
    · by_cases ht : jsTruthy t
      · rw [resolvePushTime_of_pushTime_truthy doc' v rec t (h.trans hx) hpt ht,
            resolvePushTime_of_pushTime_truthy doc v rec t hx hpt ht]
      · rw [resolvePushTime_of_pushTime_empty doc' v rec t (h.trans hx) hpt (by simpa using ht),
            resolvePushTime_of_pushTime_empty doc v rec t hx hpt (by simpa using ht)]

/-- Resolving one uid's push time (with its lazy backfills) leaves every
uid's resolved push time unchanged: a backfill only ever replaces an
absent or empty push time by `"20:00"`, which is also what resolution
yields for it. -/
theorem resolvePushTime_stable (doc? : Option PrefDoc) (u v : String) :
    (resolvePushTime (resolvePushTime doc? u).2 v).1 = (resolvePushTime doc? v).1 := by
  rcases doc? with _ | doc
  · rw [resolvePushTime_of_missing u]
    by_cases hv : v = u
    · subst hv
      have hl : lookupUser ⟨[(v, schedulerDefaultRecord)]⟩ v = some schedulerDefaultRecord := by
        simp [lookupUser, List.find?]
      rw [(resolvePushTime_of_pushTime_truthy _ v _ "20:00" hl rfl rfl :
            resolvePushTime (some ⟨[(v, schedulerDefaultRecord)]⟩) v = _)]
      rfl
    · have huv : u ≠ v := fun hh => hv hh.symm
      have hl : lookupUser ⟨[(u, schedulerDefaultRecord)]⟩ v = none := by
        simp [lookupUser, List.find?, huv]
      rw [resolvePushTime_of_no_record _ v hl]
      rfl
  · rcases hrec : lookupUser doc u with _ | rec
    · rw [resolvePushTime_of_no_record doc u hrec]
      by_cases hv : v = u
      · subst hv
        have hl : lookupUser (setUser doc v schedulerDefaultRecord) v
            = some schedulerDefaultRecord := by
          rw [lookupUser_setUser]; simp
        rw [(resolvePushTime_of_pushTime_truthy _ v _ "20:00" hl rfl rfl :
              resolvePushTime (some (setUser doc v schedulerDefaultRecord)) v = _),
            resolvePushTime_of_no_record doc v hrec]
      · apply resolvePushTime_fst_congr
        rw [lookupUser_setUser]
        simp [hv]
    · rcases hpt : rec.pushTime with _ | t
      · rw [resolvePushTime_of_pushTime_none doc u rec hrec hpt]
        by_cases hv : v = u
        · subst hv
          have hl : lookupUser (setUser doc v { rec with pushTime := some "20:00" }) v
              = some { rec with pushTime := some "20:00" } := by
            rw [lookupUser_setUser]; simp
          rw [(resolvePushTime_of_pushTime_truthy _ v _ "20:00" hl rfl rfl :
                resolvePushTime (some (setUser doc v { rec with pushTime := some "20:00" })) v = _),
              resolvePushTime_of_pushTime_none doc v rec hrec hpt]
        · apply resolvePushTime_fst_congr
          rw [lookupUser_setUser]
          simp [hv]
      · by_cases ht : jsTruthy t
        · rw [resolvePushTime_of_pushTime_truthy doc u rec t hrec hpt ht]
        · rw [resolvePushTime_of_pushTime_empty doc u rec t hrec hpt (by simpa using ht)]
          by_cases hv : v = u
          · subst hv
            have hl : lookupUser (setUser doc v { rec with pushTime := some "20:00" }) v
                = some { rec with pushTime := some "20:00" } := by
              rw [lookupUser_setUser]; simp
            rw [(resolvePushTime_of_pushTime_truthy _ v _ "20:00" hl rfl rfl :
                  resolvePushTime (some (setUser doc v { rec with pushTime := some "20:00" })) v = _),
                resolvePushTime_of_pushTime_empty doc v rec t hrec hpt (by simpa using ht)]
          · apply resolvePushTime_fst_congr
            rw [lookupUser_setUser]
            simp [hv]

/-- The dispatched list of one scheduler tick is the filter of the
eligible uid list by the match of the (initial-state) resolved push time
against the current wall-clock time. -/
theorem schedulerTick_filter (doc? : Option PrefDoc) (uids : List String) (h m : Nat) :
    (schedulerTick doc? uids h m).1
      = uids.filter (fun uid => parsedTimeMatches (resolvePushTime doc? uid).1 h m) := by
  suffices haux : ∀ (l : List String) (acc : List String) (st : Option PrefDoc),
      (l.foldl (fun acc uid =>
          let r := resolvePushTime acc.2 uid
          (if parsedTimeMatches r.1 h m then acc.1 ++ [uid] else acc.1, r.2)) (acc, st)).1
        = acc ++ l.filter (fun uid => parsedTimeMatches (resolvePushTime st uid).1 h m) by
    simpa [schedulerTick] using haux uids [] doc?
  intro l
  induction l with
  | nil => intro acc st; simp
  | cons u t ih =>
    intro acc st
    simp only [List.foldl_cons, List.filter_cons]
    rw [ih]
    have hstable : ∀ w ∈ t,
        parsedTimeMatches (resolvePushTime (resolvePushTime st u).2 w).1 h m
          = parsedTimeMatches (resolvePushTime st w).1 h m := by
      intro w _
      rw [resolvePushTime_stable]
    rw [List.filter_congr hstable]
    by_cases hmatch : parsedTimeMatches (resolvePushTime st u).1 h m
    · simp [hmatch]
    · simp [hmatch]

/-- C1 (amended): on a scheduler tick at wall-clock time `(h, m)`, the
dispatched list is exactly the eligible uids whose resolved push-time
string — the stored value when the record exists and the stored
`pushTime` is a non-empty string, and `"20:00"` when the file, the
record, or the value is absent or empty — splits on `":"` into numbers
equal to `h` and `m`.  Each matched uid is dispatched exactly as often as
it occurs in the eligible list (hence exactly once for a duplicate-free
list), and a uid whose resolved push time parses to any other pair — or
does not parse at all — is not dispatched.  (The claim's reading that a
present but *invalid* string is also defaulted to 20:00 is refuted by
`c1_tick_dispatch_counterexample`.) -/
theorem c1_tick_dispatch (doc? : Option PrefDoc) (uids : List String) (h m : Nat) :
    (schedulerTick doc? uids h m).1
      = uids.filter (fun uid => parsedTimeMatches (resolvePushTime doc? uid).1 h m) ∧
    (∀ uid, uid ∈ (schedulerTick doc? uids h m).1 ↔
      uid ∈ uids ∧ parsedTimeMatches (resolvePushTime doc? uid).1 h m = true) ∧
    (∀ uid, (schedulerTick doc? uids h m).1.count uid
      = if parsedTimeMatches (resolvePushTime doc? uid).1 h m then uids.count uid else 0) := by
  have key := schedulerTick_filter doc? uids h m
  refine ⟨key, ?_, ?_⟩
  · intro uid
    rw [key]
    simp [List.mem_filter]
  · intro uid
    rw [key]
    by_cases hmatch : parsedTimeMatches (resolvePushTime doc? uid).1 h m
    · rw [if_pos hmatch]
      exact List.count_filter hmatch
    · rw [if_neg hmatch]
      rw [List.count_eq_zero]
      intro hmem
      rw [List.mem_filter] at hmem
      exact hmatch hmem.2

/-- C1 (counterexample to the claim as stated): a user whose stored
`pushTime` is the invalid string `"banana"` is, per the claim's
resolution rule (*defaulting to 20:00 if absent or invalid*), due at
`20:00` — but the scheduler tick at `(20, 0)` dispatches nobody, because
the code only defaults an absent or non-string value and an invalid
string never parses equal to the clock. -/
theorem c1_tick_dispatch_counterexample :
    parsedTimeMatches
        (specResolvedPushTime (some ⟨[("u1", { pushTime := some "banana" })]⟩) "u1") 20 0
      = true ∧
    (schedulerTick (some ⟨[("u1", { pushTime := some "banana" })]⟩) ["u1"] 20 0).1 = [] := by
  constructor <;> decide

theorem c1_tick_dispatch_witness :
    (schedulerTick
        (some ⟨[("u1", { pushTime := some "08:30" }), ("u2", { pushTime := some "08:31" })]⟩)
        ["u1", "u2"] 8 30).1 = ["u1"] := by
  rw [(c1_tick_dispatch
        (some ⟨[("u1", { pushTime := some "08:30" }), ("u2", { pushTime := some "08:31" })]⟩)
        ["u1", "u2"] 8 30).1]
  decide

theorem c2_push_loop_isolation_witness :
    (getWeatherAndPush (fun uid => if uid = "u1" then .error "boom" else .ok ())
        ["u1", "u2"]).map Prod.fst = ["u1", "u2"] :=
  (c2_push_loop_isolation (fun uid => if uid = "u1" then .error "boom" else .ok ())
    ["u1", "u2"]).1

/-- A small concrete directory for the C4 and C5 instances. -/
def bjDir : Directory := [("北京", [("朝阳", { code := "101010900", name := "北京朝阳" })])]

/-- A stored record whose location does not resolve against `bjDir` but
whose push time is set. -/
def c4Doc : PrefDoc :=
  ⟨[("u1", { location := some { city := "乌有城", district := "乌有区",
                                code := "000000000", name := some "乌有" },
             pushTime := some "08:30" })]⟩

/-- C4 (counterexample to the claim as stated): a uid whose stored
location does not resolve against the directory gets the default
*location*, but its stored push time `"08:30"` is returned unchanged —
not the claimed default `"20:00"`. -/
theorem c4_default_preference_counterexample :
    isLocationValidCD bjDir "乌有城" "乌有区" = false ∧
    (getUserLocationPreference bjDir {} (some c4Doc) "u1").1 = defaultLocation bjDir {} ∧
    getPushTime (some c4Doc) "u1" = "08:30" ∧
    getPushTime (some c4Doc) "u1" ≠ "20:00" := by
  refine ⟨by decide, by decide, by decide, by decide⟩

/-- C4 (amended): for a uid with no stored record (or no file at all),
`getUserLocationPreference` returns the process-wide default location and
`getPushTime` returns `"20:00"`, deterministically and without raising
(both functions are total and every failure path yields the default); for
a uid whose stored location does not resolve against the directory the
default location is likewise returned, while the push time is defaulted
to `"20:00"` only when no truthy `pushTime` is stored — a stored non-empty
push time is returned unchanged. -/
theorem c4_default_preference (dir : Directory) (cfg : DefaultLocationConfig)
    (doc? : Option PrefDoc) (uid : String) :
    ((doc? = none ∨ ∃ doc, doc? = some doc ∧ lookupUser doc uid = none) →
      (getUserLocationPreference dir cfg doc? uid).1 = defaultLocation dir cfg ∧
      getPushTime doc? uid = "20:00") ∧
    (∀ doc rec loc, doc? = some doc → lookupUser doc uid = some rec →
      rec.location = some loc → isLocationValidCD dir loc.city loc.district = false →
      (getUserLocationPreference dir cfg doc? uid).1 = defaultLocation dir cfg) ∧
    (∀ doc rec, doc? = some doc → lookupUser doc uid = some rec →
      (rec.pushTime = none → getPushTime doc? uid = "20:00") ∧
      (∀ t, rec.pushTime = some t → jsTruthy t = true → getPushTime doc? uid = t)) := by
  refine ⟨?_, ?_, ?_⟩
  · rintro (rfl | ⟨doc, rfl, hlk⟩)
    · exact ⟨rfl, rfl⟩
    · constructor
      · simp only [getUserLocationPreference, ensurePreferenceFileExists, Option.getD_some]
        rw [hlk]
      · simp only [getPushTime, ensurePreferenceFileExists, Option.getD_some]
        rw [hlk]
  · rintro doc rec loc rfl hlk hloc hvalid
    simp only [getUserLocationPreference, ensurePreferenceFileExists, Option.getD_some]
    rw [hlk]
    simp only [hloc, hvalid, Bool.false_eq_true, if_false]
  · rintro doc rec rfl hlk
    constructor
    · intro hpt
      simp only [getPushTime, ensurePreferenceFileExists, Option.getD_some]
      rw [hlk]
      simp only [hpt]
    · intro t hpt htr
      simp only [getPushTime, ensurePreferenceFileExists, Option.getD_some]
      rw [hlk]
      simp only [hpt, htr, if_true]

theorem c4_default_preference_witness :
    (getUserLocationPreference bjDir {} (some emptyPrefDoc) "nouser").1
      = defaultLocation bjDir {} ∧
    getPushTime (some emptyPrefDoc) "nouser" = "20:00" :=
  (c4_default_preference bjDir {} (some emptyPrefDoc) "nouser").1 (Or.inr ⟨_, rfl, rfl⟩)

/-- District-level scan of `getLocationInfo`: when the inner `findSome?`
over a district list with unique keys succeeds, the produced info names
the scanned city, carries the searched code, and a key lookup of the
produced district recovers the matched entry. -/
theorem getLocationInfo_inner_spec (city code : String) :
    ∀ (ds : List (String × LocEntry)), (ds.map Prod.fst).Nodup →
    ∀ info : LocationInfo,
    ds.findSome? (fun dp =>
        if dp.2.code = code then
          some { city := city, district := dp.1, code := code, name := some dp.2.name }
        else none) = some info →
    info.city = city ∧ info.code = code ∧
    ∃ dp, ds.find? (fun p => p.1 = info.district) = some dp ∧ dp ∈ ds ∧
      dp.2.code = code ∧ info.name = some dp.2.name := by
  intro ds
  induction ds with
  | nil => intro _ info h; simp at h
  | cons dp rest ih =>
    intro hnodup info h
    rw [List.findSome?_cons] at h
    by_cases hcode : dp.2.code = code
    · simp only [if_pos hcode] at h
      injection h with h
      subst h
      refine ⟨rfl, rfl, dp, ?_, List.mem_cons_self dp rest, hcode, rfl⟩
      rw [List.find?_cons_of_pos _ (by simp)]
    · simp only [if_neg hcode] at h
      have hnd : (rest.map Prod.fst).Nodup := by
        rw [List.map_cons] at hnodup
        exact hnodup.of_cons
      obtain ⟨hc, hcd, dp', hfind, hmem, hdpcode, hname⟩ := ih hnd info h
      refine ⟨hc, hcd, dp', ?_, List.mem_cons_of_mem _ hmem, hdpcode, hname⟩
      rw [List.find?_cons_of_neg, hfind]
      have hkey : dp'.1 = info.district := by
        have := List.find?_some hfind
        simpa using this
      have hnotmem : dp.1 ∉ rest.map Prod.fst := by
        rw [List.map_cons, List.nodup_cons] at hnodup
        exact hnodup.1
      have hinmem : dp'.1 ∈ rest.map Prod.fst := List.mem_map_of_mem Prod.fst hmem
      simp only [decide_eq_true_eq]
      intro hcontra
      rw [hcontra, ← hkey] at hnotmem
      exact hnotmem hinmem

/-- City-level scan of `getLocationInfo` against a well-formed directory:
a successful scan yields an info whose city and district look up, by key,
the entry that carries the searched code. -/
theorem getLocationInfo_spec (dir : Directory) (code : String)
    (h1 : (dir.map Prod.fst).Nodup)
    (h2 : ∀ cp ∈ dir, (cp.2.map Prod.fst).Nodup) :
    ∀ info : LocationInfo, getLocationInfo dir code = some info →
    info.code = code ∧
    ∃ cp, cp ∈ dir ∧ cp.1 = info.city ∧ dirCity dir info.city = some cp.2 ∧
      ∃ dp, cp.2.find? (fun p => p.1 = info.district) = some dp ∧ dp ∈ cp.2 ∧
        dp.2.code = code ∧ info.name = some dp.2.name := by
  induction dir with
  | nil => intro info h; simp [getLocationInfo] at h
  | cons cp rest ih =>
    intro info h
    unfold getLocationInfo at h
    rw [List.findSome?_cons] at h
    rcases hF : cp.2.findSome? (fun dp =>
        if dp.2.code = code then
          some ({ city := cp.1, district := dp.1, code := code,
                  name := some dp.2.name } : LocationInfo)
        else none) with _ | i
    · rw [hF] at h
      have hrest : getLocationInfo rest code = some info := by
        unfold getLocationInfo
        exact h
      have h1' : (rest.map Prod.fst).Nodup := by
        rw [List.map_cons] at h1
        exact h1.of_cons
      have h2' : ∀ q ∈ rest, (q.2.map Prod.fst).Nodup := fun q hq =>
        h2 q (List.mem_cons_of_mem _ hq)
      obtain ⟨hcd, cp', hmem, hkey, hdircity, rest'⟩ := ih h1' h2' info hrest
      refine ⟨hcd, cp', List.mem_cons_of_mem _ hmem, hkey, ?_, rest'⟩
      unfold dirCity
      rw [List.find?_cons_of_neg]
      · unfold dirCity at hdircity
        exact hdircity
      · have hnotmem : cp.1 ∉ rest.map Prod.fst := by
          rw [List.map_cons, List.nodup_cons] at h1
          exact h1.1
        have hmemkey : cp'.1 ∈ rest.map Prod.fst := List.mem_map_of_mem Prod.fst hmem
        simp only [decide_eq_true_eq]
        intro hcontra
        rw [hcontra, ← hkey] at hnotmem
        exact hnotmem hmemkey
    · rw [hF] at h
      injection h with h
      subst h
      obtain ⟨hc, hcd, dp, hfind, hmem, hdpcode, hname⟩ :=
        getLocationInfo_inner_spec cp.1 code cp.2
          (h2 cp (List.mem_cons_self cp rest)) i hF
      refine ⟨hcd, cp, List.mem_cons_self cp rest, hc.symm, ?_, dp, hfind, hmem, hdpcode, hname⟩
      unfold dirCity
      rw [List.find?_cons_of_pos _ (by simp [hc])]
      rfl

/-- A valid location code is always found by `getLocationInfo` (both walk
the same directory scan). -/
theorem getLocationInfo_isSome (dir : Directory) (code : String)
    (hv : isLocationValidCode dir code = true) :
    ∃ info, getLocationInfo dir code = some info := by
  rcases h : getLocationInfo dir code with _ | info
  · exfalso
    unfold getLocationInfo at h
    rw [List.findSome?_eq_none_iff] at h
    unfold isLocationValidCode at hv
    rw [List.any_eq_true] at hv
    obtain ⟨cp, hcp, hany⟩ := hv
    rw [List.any_eq_true] at hany
    obtain ⟨dp, hdp, hcode⟩ := hany
    have hc := h cp hcp
    rw [List.findSome?_eq_none_iff] at hc
    have hd := hc dp hdp
    simp only [decide_eq_true_eq] at hcode
    rw [if_pos hcode] at hd
    cases hd
  · exact ⟨info, rfl⟩

/-- `getUserLocationPreference` on a record whose stored location is
valid and whose code lookup yields a truthy code: the stored city and
district are returned with the looked-up code. -/
theorem getUserLocationPreference_of_valid (dir : Directory) (cfg : DefaultLocationConfig)
    (doc : PrefDoc) (uid : String) (rec : UserRecord) (loc : StoredLocation) (c : String)
    (hlk : lookupUser doc uid = some rec) (hloc : rec.location = some loc)
    (hvalidcd : isLocationValidCD dir loc.city loc.district = true)
    (hcode : getLocationCode dir loc.city loc.district = some c)
    (htruthy : jsTruthy c = true) :
    (getUserLocationPreference dir cfg (some doc) uid).1
      = { city := loc.city, district := loc.district, code := c,
          name := getLocationName dir loc.city loc.district } := by
  simp only [getUserLocationPreference, ensurePreferenceFileExists, Option.getD_some]
  rw [hlk]
  simp only [hloc, hvalidcd, if_true, hcode, htruthy, Bool.not_true, Bool.false_eq_true,
    if_false]

/-- C5: for every location code that is valid in the (well-formed)
Location Directory, `setUserLocationPreference(uid, code)` succeeds, and
an immediately following `getUserLocationPreference(uid)` on the
resulting file state — with no intervening writes and the same directory
— returns a location whose `code` field equals `code`.  (Well-formedness
is the structure the JSON directory guarantees: unique city and district
keys and non-empty numeric codes.) -/
theorem c5_setLocation_roundtrip (dir : Directory) (cfg : DefaultLocationConfig)
    (doc? : Option PrefDoc) (uid code : String)
    (hwf : WellFormedDirectory dir) (hvalid : isLocationValidCode dir code = true) :
    ∃ doc', (setUserLocationPreference dir doc? uid code).1 = some doc' ∧
      (setUserLocationPreference dir doc? uid code).2 = .ok true ∧
      (getUserLocationPreference dir cfg (some doc') uid).1.code = code := by
  obtain ⟨info, hinfo⟩ := getLocationInfo_isSome dir code hvalid
  obtain ⟨hcd, cp, hcpmem, hcp1, hdircity, dp, hfind, hdpmem, hdpcode, hname⟩ :=
    getLocationInfo_spec dir code hwf.cityKeysNodup hwf.districtKeysNodup info hinfo
  have hset : setUserLocationPreference dir doc? uid code =
      (some (setUser (ensurePreferenceFileExists doc?) uid
        { (lookupUser (ensurePreferenceFileExists doc?) uid).getD {} with
          location := some { city := info.city, district := info.district,
                             code := code, name := info.name } }), .ok true) := by
    simp only [setUserLocationPreference]
    rw [if_neg (by simp [hvalid])]
    rw [hinfo]
  have hentry : dirEntry dir info.city info.district = some dp.2 := by
    unfold dirEntry
    rw [hdircity]
    show (cp.2.find? (fun p => p.1 = info.district)).map (fun p => p.2) = some dp.2
    rw [hfind]
    rfl
  have hvalidcd : isLocationValidCD dir info.city info.district = true := by
    unfold isLocationValidCD
    rw [hentry]
    rfl
  have hgetcode : getLocationCode dir info.city info.district = some dp.2.code := by
    unfold getLocationCode
    rw [hentry]
    rfl
  have hne : code ≠ "" := hdpcode ▸ hwf.codesNonEmpty cp hcpmem dp hdpmem
  have htruthy : jsTruthy dp.2.code = true := by
    unfold jsTruthy
    rcases hb : dp.2.code.isEmpty with _ | _
    · rfl
    · exact absurd (hdpcode ▸ (String.isEmpty_iff dp.2.code).mp hb) hne
  refine ⟨_, by rw [hset], by rw [hset], ?_⟩
  rw [getUserLocationPreference_of_valid dir cfg _ uid
    { (lookupUser (ensurePreferenceFileExists doc?) uid).getD {} with
      location := some { city := info.city, district := info.district,
                         code := code, name := info.name } }
    { city := info.city, district := info.district, code := code, name := info.name }
    dp.2.code
    (by rw [lookupUser_setUser]; simp) rfl hvalidcd hgetcode htruthy]
  exact hdpcode

theorem c5_setLocation_roundtrip_witness :
    ∃ doc', (setUserLocationPreference bjDir (some emptyPrefDoc) "u1" "101010900").1
        = some doc' ∧
      (setUserLocationPreference bjDir (some emptyPrefDoc) "u1" "101010900").2 = .ok true ∧
      (getUserLocationPreference bjDir {} (some doc') "u1").1.code = "101010900" :=
  c5_setLocation_roundtrip bjDir {} (some emptyPrefDoc) "u1" "101010900"
    (by constructor <;> decide) (by decide)

/-- Appending to a non-empty string keeps it truthy. -/
theorem jsTruthy_append (s t : String) (h : jsTruthy s = true) :
    jsTruthy (s ++ t) = true := by
  unfold jsTruthy at h ⊢
  rcases hb : (s ++ t).isEmpty with _ | _
  · rfl
  · exfalso
    have he := (String.isEmpty_iff (s ++ t)).mp hb
    have hdata : s.data ++ t.data = [] := by
      have := congrArg String.data he
      rwa [String.data_append] at this
    have hsd : s.data = [] := (List.append_eq_nil.mp hdata).1
    have hs : s = "" := by
      cases s with
      | mk l => cases hsd; rfl
    rw [hs] at h
    exact absurd h (by decide)

/-- C7: when the rainfall chart generation fails (network error) while
the temperature and wind generations succeed, the failed chart yields no
URL, each successful chart yields its `/charts/...` URL, the chart blocks
of the message are exactly the temperature and wind blocks (the rainfall
block is the only one omitted), and `formatWeatherData` still completes:
it returns the full HTML message, which contains exactly those chart
blocks between its head and bottom parts. -/
theorem c7_chart_failure_isolated (wd : WeatherData) (ds : List ForecastDay)
    (sugg : Option String) (err : String) (tsT tsR tsW rnd : Nat)
    (envB envP : Option String)
    (hds : wd.daily = some ds) (hlen : 3 ≤ ds.length) :
    generateRainfallChart ds (jsOrOpt wd.location "101190104") (.error err) tsR = none ∧
    generateTemperatureChart ds (jsOrOpt wd.location "101190104") (.ok ()) tsT
      = some ("/charts/" ++ ("temp_chart_" ++ jsOrOpt wd.location "101190104"
          ++ "_" ++ toString tsT ++ ".png")) ∧
    generateWindChart ds (jsOrOpt wd.location "101190104") (.ok ()) tsW
      = some ("/charts/" ++ ("wind_chart_" ++ jsOrOpt wd.location "101190104"
          ++ "_" ++ toString tsW ++ ".png")) ∧
    chartSectionsHtml (computeServerBaseUrl envB envP)
        (generateTemperatureChart ds (jsOrOpt wd.location "101190104") (.ok ()) tsT)
        (generateRainfallChart ds (jsOrOpt wd.location "101190104") (.error err) tsR)
        (generateWindChart ds (jsOrOpt wd.location "101190104") (.ok ()) tsW)
      = [tempChartSection (computeServerBaseUrl envB envP)
           ("/charts/" ++ ("temp_chart_" ++ jsOrOpt wd.location "101190104"
             ++ "_" ++ toString tsT ++ ".png")),
         windChartSection (computeServerBaseUrl envB envP)
           ("/charts/" ++ ("wind_chart_" ++ jsOrOpt wd.location "101190104"
             ++ "_" ++ toString tsW ++ ".png"))] ∧
    (∃ pre post,
      formatWeatherData (some wd) sugg (.ok ()) (.error err) (.ok ()) tsT tsR tsW
          envB envP rnd
        = pre
          ++ String.join (chartSectionsHtml (computeServerBaseUrl envB envP)
               (generateTemperatureChart ds (jsOrOpt wd.location "101190104") (.ok ()) tsT)
               (generateRainfallChart ds (jsOrOpt wd.location "101190104") (.error err) tsR)
               (generateWindChart ds (jsOrOpt wd.location "101190104") (.ok ()) tsW))
          ++ post) := by
  have hnotlt : ¬ ds.length < 3 := by omega
  have hrain : generateRainfallChart ds (jsOrOpt wd.location "101190104") (.error err) tsR
      = none := by
    unfold generateRainfallChart generateChartImageWithString
    rw [if_neg hnotlt]
  have htemp : generateTemperatureChart ds (jsOrOpt wd.location "101190104") (.ok ()) tsT
      = some ("/charts/" ++ ("temp_chart_" ++ jsOrOpt wd.location "101190104"
          ++ "_" ++ toString tsT ++ ".png")) := by
    unfold generateTemperatureChart generateChartImageWithString
    rw [if_neg hnotlt]
  have hwind : generateWindChart ds (jsOrOpt wd.location "101190104") (.ok ()) tsW
      = some ("/charts/" ++ ("wind_chart_" ++ jsOrOpt wd.location "101190104"
          ++ "_" ++ toString tsW ++ ".png")) := by
    unfold generateWindChart generateChartImageWithString
    rw [if_neg hnotlt]
  have hsections : chartSectionsHtml (computeServerBaseUrl envB envP)
        (generateTemperatureChart ds (jsOrOpt wd.location "101190104") (.ok ()) tsT)
        (generateRainfallChart ds (jsOrOpt wd.location "101190104") (.error err) tsR)
        (generateWindChart ds (jsOrOpt wd.location "101190104") (.ok ()) tsW)
      = [tempChartSection (computeServerBaseUrl envB envP)
           ("/charts/" ++ ("temp_chart_" ++ jsOrOpt wd.location "101190104"
             ++ "_" ++ toString tsT ++ ".png")),
         windChartSection (computeServerBaseUrl envB envP)
           ("/charts/" ++ ("wind_chart_" ++ jsOrOpt wd.location "101190104"
             ++ "_" ++ toString tsW ++ ".png"))] := by
    rw [hrain, htemp, hwind]
    unfold chartSectionsHtml
    rw [if_pos (by
          show jsTruthyOpt (some _) = true
          show jsTruthy _ = true
          exact jsTruthy_append "/charts/" _ (by decide)),
        if_neg (by simp [jsTruthyOpt]),
        if_pos (by
          show jsTruthyOpt (some _) = true
          show jsTruthy _ = true
          exact jsTruthy_append "/charts/" _ (by decide))]
    rfl
  refine ⟨hrain, htemp, hwind, hsections, ?_⟩
  refine ⟨weatherHeadHtml
      (weatherCss (weatherTempColor ((ds.get? 1).getD {}))
        (getWeatherBackground ((ds.get? 1).getD {}).textDay))
      (jsOrOpt wd.locationName "南京江宁")
      (jsOr ((ds.get? 1).getD {}).fxDate "明天")
      (getWeekdayName (jsOr ((ds.get? 1).getD {}).fxDate "明天"))
      (getWeatherIcon ((ds.get? 1).getD {}).textDay)
      (((ds.get? 1).getD {}).textDay ++ "转" ++ ((ds.get? 1).getD {}).textNight)
      (((ds.get? 1).getD {}).tempMin ++ "°C ~ " ++ ((ds.get? 1).getD {}).tempMax ++ "°C")
      (jsOr ((ds.get? 1).getD {}).windDirDay "未知")
      (((ds.get? 1).getD {}).windScaleDay ++ "级")
      (jsOr ((ds.get? 1).getD {}).humidity "未知")
      ++ weatherAlertHtml (generateWeatherAlert ((ds.get? 1).getD {}))
      ++ weatherTrendSectionHtml ds,
    weatherClothingHtml sugg ++ weatherBottomHtml rnd, ?_⟩
  simp only [formatWeatherData, hds]
  rw [if_neg (by omega : ¬ ds.length < 2)]
  simp only [if_pos hlen]
  simp only [String.append_assoc]

/-- A concrete three-day forecast used to witness the chart-failure claim. -/
def c7days : List ForecastDay :=
  [{ fxDate := "2024-05-01", textDay := "晴", textNight := "多云", tempMin := "15",
     tempMax := "25", windDirDay := "北风", windScaleDay := "3", humidity := "40",
     precip := "0.0", pop := "10" },
   { fxDate := "2024-05-02", textDay := "多云", textNight := "阴", tempMin := "16",
     tempMax := "26", windDirDay := "南风", windScaleDay := "2", humidity := "50",
     precip := "0.0", pop := "20" },
   { fxDate := "2024-05-03", textDay := "小雨", textNight := "小雨", tempMin := "14",
     tempMax := "20", windDirDay := "东风", windScaleDay := "4", humidity := "80",
     precip := "5.0", pop := "70" }]

/-- A concrete weather response carrying `c7days`. -/
def c7wd : WeatherData :=
  { daily := some c7days, locationName := some "北京朝阳", location := some "101010900" }

theorem c7_chart_failure_isolated_witness :
    generateRainfallChart c7days (jsOrOpt c7wd.location "101190104")
        (.error "ECONNRESET") 5 = none ∧
    generateTemperatureChart c7days (jsOrOpt c7wd.location "101190104") (.ok ()) 3
      = some ("/charts/" ++ ("temp_chart_" ++ jsOrOpt c7wd.location "101190104"
          ++ "_" ++ toString 3 ++ ".png")) ∧
    generateWindChart c7days (jsOrOpt c7wd.location "101190104") (.ok ()) 7
      = some ("/charts/" ++ ("wind_chart_" ++ jsOrOpt c7wd.location "101190104"
          ++ "_" ++ toString 7 ++ ".png")) ∧
    chartSectionsHtml (computeServerBaseUrl none none)
        (generateTemperatureChart c7days (jsOrOpt c7wd.location "101190104") (.ok ()) 3)
        (generateRainfallChart c7days (jsOrOpt c7wd.location "101190104")
          (.error "ECONNRESET") 5)
        (generateWindChart c7days (jsOrOpt c7wd.location "101190104") (.ok ()) 7)
      = [tempChartSection (computeServerBaseUrl none none)
           ("/charts/" ++ ("temp_chart_" ++ jsOrOpt c7wd.location "101190104"
             ++ "_" ++ toString 3 ++ ".png")),
         windChartSection (computeServerBaseUrl none none)
           ("/charts/" ++ ("wind_chart_" ++ jsOrOpt c7wd.location "101190104"
             ++ "_" ++ toString 7 ++ ".png"))] ∧
    (∃ pre post,
      formatWeatherData (some c7wd) (some "建议穿外套") (.ok ()) (.error "ECONNRESET")
          (.ok ()) 3 5 7 none none 0
        = pre
          ++ String.join (chartSectionsHtml (computeServerBaseUrl none none)
               (generateTemperatureChart c7days (jsOrOpt c7wd.location "101190104")
                 (.ok ()) 3)
               (generateRainfallChart c7days (jsOrOpt c7wd.location "101190104")
                 (.error "ECONNRESET") 5)
               (generateWindChart c7days (jsOrOpt c7wd.location "101190104") (.ok ()) 7))
          ++ post) :=
  c7_chart_failure_isolated c7wd c7days (some "建议穿外套") "ECONNRESET" 3 5 7 0
    none none rfl (by decide)

/-- C8: the command handler is a total function returning a content and
isHtml pair, mirroring the source handler that turns regex mismatches
into formatted cards instead of throwing: every reply is tagged as HTML;
a message matching no command pattern yields the unrecognized-command
card, whose content contains the marker `未识别的命令`, with the store
untouched; and a `设置推送时间` command whose argument fails the time
pattern yields the formatted `格式错误` warning card, again leaving the
store untouched. -/
theorem c8_handler_never_throws (dir : Directory) (cfg : DefaultLocationConfig)
    (doc? : Option PrefDoc) (message uid : String) :
    (handleMessage dir cfg doc? message uid).1.isHtml = true ∧
    (matchesNoCommand message = true →
      (handleMessage dir cfg doc? message uid).1.content = unrecognizedCommandHtml ∧
      jsIncludes (handleMessage dir cfg doc? message uid).1.content "未识别的命令" = true ∧
      (handleMessage dir cfg doc? message uid).2 = doc?) ∧
    (strStartsWith message "设置推送时间" = true →
      matchSetPushTimeArg (message.drop 6) = none →
      (handleMessage dir cfg doc? message uid).1.content
        = formatCommandResponse "格式错误"
            "格式错误！\n\n请使用以下格式设置推送时间：\n`设置推送时间：小时:分钟`\n\n例如：`设置推送时间：8:30` 或 `设置推送时间：20:00`"
            "⚠️" "warning" "" ∧
      (handleMessage dir cfg doc? message uid).2 = doc?) := by
  refine ⟨?_, ?_, ?_⟩
  · simp only [handleMessage]
    repeat' split
    all_goals rfl
  · intro h
    simp only [matchesNoCommand, Bool.and_eq_true, Bool.not_eq_true', bne_iff_ne,
      ne_eq] at h
    obtain ⟨⟨⟨⟨⟨⟨⟨h1, h2⟩, h3⟩, h4⟩, h5⟩, h6⟩, h7⟩, h8⟩ := h
    simp only [handleMessage]
    rw [if_neg (by simp [h1]), if_neg h2, if_neg (by simp [h3]), if_neg (by simp [h4]),
        if_neg h5, if_neg (by simp [h6]), if_neg h7, if_neg h8]
    refine ⟨rfl, ?_, rfl⟩
    show jsIncludes unrecognizedCommandHtml "未识别的命令" = true
    set_option maxRecDepth 100000 in decide
  · intro hpre hnone
    have hp : "设置推送时间".data <+: message.data := by
      unfold strStartsWith at hpre
      exact List.isPrefixOf_iff_prefix.mp hpre
    obtain ⟨rest, hrest⟩ := hp
    have hdata : message.data = '设' :: '置' :: '推' :: '送' :: '时' :: '间' :: rest := by
      rw [← hrest]; rfl
    have hc1 : strStartsWith message "设置地区" = false := by
      unfold strStartsWith; rw [hdata]; rfl
    have hc2 : ¬ message = "地区列表" := by
      intro h; rw [h] at hdata
      injection hdata with hh _
      exact absurd hh (by decide)
    have hc3 : strStartsWith message "查看城市详情" = false := by
      unfold strStartsWith; rw [hdata]; rfl
    have hc4 : strStartsWith message "查看城市" = false := by
      unfold strStartsWith; rw [hdata]; rfl
    have hc5 : ¬ message = "当前地区" := by
      intro h; rw [h] at hdata
      injection hdata with hh _
      exact absurd hh (by decide)
    simp only [handleMessage]
    rw [if_neg (by simp [hc1]), if_neg hc2, if_neg (by simp [hc3]), if_neg (by simp [hc4]),
        if_neg hc5, if_pos hpre]
    simp only [handleSetPushTime]
    rw [if_pos hpre, hnone]
    exact ⟨rfl, rfl⟩

theorem c8_handler_never_throws_witness :
    (handleMessage bjDir {} (some emptyPrefDoc) "你好啊" "u1").1.isHtml = true ∧
    (handleMessage bjDir {} (some emptyPrefDoc) "你好啊" "u1").1.content
      = unrecognizedCommandHtml ∧
    (handleMessage bjDir {} (some emptyPrefDoc) "设置推送时间：99点" "u1").1.content
      = formatCommandResponse "格式错误"
          "格式错误！\n\n请使用以下格式设置推送时间：\n`设置推送时间：小时:分钟`\n\n例如：`设置推送时间：8:30` 或 `设置推送时间：20:00`"
          "⚠️" "warning" "" ∧
    (handleMessage bjDir {} (some emptyPrefDoc) "设置推送时间：99点" "u1").2
      = some emptyPrefDoc :=
  ⟨(c8_handler_never_throws bjDir {} (some emptyPrefDoc) "你好啊" "u1").1,
   ((c8_handler_never_throws bjDir {} (some emptyPrefDoc) "你好啊" "u1").2.1
      (by decide)).1,
   ((c8_handler_never_throws bjDir {} (some emptyPrefDoc) "设置推送时间：99点" "u1").2.2
      (by decide) (by decide)).1,
   ((c8_handler_never_throws bjDir {} (some emptyPrefDoc) "设置推送时间：99点" "u1").2.2
      (by decide) (by decide)).2⟩
